import Mathlib

/-!
Verification of the Iron Fog game server simulation core
(`server/server.py`) against its natural-language specification.

The Python source is embedded shallowly:

* axial hex cells are `ℤ × ℤ`; the pure hex helpers (`hex_distance`,
  `hex_range`, `hex_line`) are transcribed directly;
* Python floats are idealised as exact rationals (`ℚ`) where the code only
  performs field operations, and as reals (`ℝ`) for positions, which flow
  through `math.sqrt`;
* Python's builtin `round` (round half to even on floats) is modelled by
  `pyRoundQ : ℚ → ℤ` resp. `pyRound : ℝ → ℤ`;
* `random.uniform(a,b)` draws are injected as a stream `ℕ → ℚ` of samples
  in `[0,1]`, `random.choice` as a stream of indices, so every theorem
  quantifies over the random source;
* Python dicts keyed by ids are association lists `List (ℕ × _)` iterated
  in insertion order, matching dict iteration order.
-/

/-! ### Hex geometry (pure, computable) -/

/-- `hex_distance` from the source:
`(abs(a[0]-b[0]) + abs(a[0]+a[1]-b[0]-b[1]) + abs(a[1]-b[1])) // 2`. -/
def hex_distance (a b : ℤ × ℤ) : ℤ :=
  (|a.1 - b.1| + |a.1 + a.2 - b.1 - b.2| + |a.2 - b.2|) / 2

/-- Python `range(lo, hi)` over integers, as a list. -/
def intRange (lo hi : ℤ) : List ℤ :=
  (List.range (hi - lo).toNat).map (fun i : ℕ => lo + (i : ℤ))

/-- `hex_range` from the source: the two nested Python `range` loops
`for dq in range(-radius, radius+1): for dr in range(max(-radius, -dq-radius),
min(radius, -dq+radius)+1)` collecting `(center[0]+dq, center[1]+dr)`. -/
def hex_range (center : ℤ × ℤ) (radius : ℤ) : List (ℤ × ℤ) :=
  (intRange (-radius) (radius + 1)).flatMap fun dq =>
    (intRange (max (-radius) (-dq - radius)) (min radius (-dq + radius) + 1)).map
      fun dr => (center.1 + dq, center.2 + dr)

/-- Python's builtin `round` on an exact rational value: round to nearest,
ties to even (banker's rounding, the float behaviour). -/
def pyRoundQ (x : ℚ) : ℤ :=
  if x - (⌊x⌋ : ℚ) < 1/2 then ⌊x⌋
  else if 1/2 < x - (⌊x⌋ : ℚ) then ⌊x⌋ + 1
  else if ⌊x⌋ % 2 = 0 then ⌊x⌋ else ⌊x⌋ + 1

/-- The rounding error `dx` of the cube-rounding step of `hex_line`
(`x` axis): distance from the rounded `rx` back to `x`. -/
def dxE (x z : ℚ) : ℚ := |((pyRoundQ x : ℤ) : ℚ) - x|

/-- The rounding error `dy` of the cube-rounding step (`y = -x-z` axis). -/
def dyE (x z : ℚ) : ℚ := |((pyRoundQ (-x - z) : ℤ) : ℚ) - (-x - z)|

/-- The rounding error `dz` of the cube-rounding step (`z` axis). -/
def dzE (x z : ℚ) : ℚ := |((pyRoundQ z : ℤ) : ℚ) - z|

/-- The cube-rounding step of `hex_line`, returning the resulting axial
cell `(rx, rz)`.  Transcribed from the source: round all three cube
coordinates (`y = -x-z`), then correct `rx` when `dx > dy and dx > dz`,
else correct `ry` when `dy > dz`, else correct `rz`; the returned axial
pair is `(rx, rz)` after correction. -/
def cubeRound (x z : ℚ) : ℤ × ℤ :=
  if dyE x z < dxE x z ∧ dzE x z < dxE x z then
    (-(pyRoundQ (-x - z)) - pyRoundQ z, pyRoundQ z)
  else if dzE x z < dyE x z then (pyRoundQ x, pyRoundQ z)
  else (pyRoundQ x, -(pyRoundQ x) - pyRoundQ (-x - z))

/-- Modelled from the spec: "round each intermediate point using the
standard tie-break (correct whichever cube axis has the largest rounding
error first, preferring x, then y, then z)": the axis with the weakly
largest error is corrected, preferring `x` over `y` over `z` on ties. -/
def cubeRoundSpec (x z : ℚ) : ℤ × ℤ :=
  if dxE x z ≥ dyE x z ∧ dxE x z ≥ dzE x z then
    (-(pyRoundQ (-x - z)) - pyRoundQ z, pyRoundQ z)
  else if dyE x z ≥ dzE x z then (pyRoundQ x, pyRoundQ z)
  else (pyRoundQ x, -(pyRoundQ x) - pyRoundQ (-x - z))

/-- The interpolated cube point of `hex_line` at index `i`:
`t = i / n`, `fq = a[0] + (b[0]-a[0])*t + 1e-6`,
`fr = a[1] + (b[1]-a[1])*t + 1e-6`, then cube rounding. -/
def hexLinePoint (a b : ℤ × ℤ) (i : ℕ) : ℤ × ℤ :=
  cubeRound
    ((a.1 : ℚ) + ((b.1 : ℚ) - (a.1 : ℚ)) * ((i : ℚ) / ((hex_distance a b : ℤ) : ℚ)) + 1/1000000)
    ((a.2 : ℚ) + ((b.2 : ℚ) - (a.2 : ℚ)) * ((i : ℚ) / ((hex_distance a b : ℤ) : ℚ)) + 1/1000000)

/-- `hex_line` from the source: `n = hex_distance(a, b)`; `[a]` when
`n = 0`, otherwise the rounded interpolants at `i = 0, …, n`. -/
def hex_line (a b : ℤ × ℤ) : List (ℤ × ℤ) :=
  if hex_distance a b = 0 then [a]
  else (List.range ((hex_distance a b).toNat + 1)).map (hexLinePoint a b)

/-- The spec-described variant of `hexLinePoint` (identical interpolation,
prefer-x tie-break in the rounding). -/
def hexLinePointSpec (a b : ℤ × ℤ) (i : ℕ) : ℤ × ℤ :=
  cubeRoundSpec
    ((a.1 : ℚ) + ((b.1 : ℚ) - (a.1 : ℚ)) * ((i : ℚ) / ((hex_distance a b : ℤ) : ℚ)) + 1/1000000)
    ((a.2 : ℚ) + ((b.2 : ℚ) - (a.2 : ℚ)) * ((i : ℚ) / ((hex_distance a b : ℤ) : ℚ)) + 1/1000000)

/-- The spec-described variant of `hex_line` built on the prefer-x
tie-break. -/
def hexLineSpec (a b : ℤ × ℤ) : List (ℤ × ℤ) :=
  if hex_distance a b = 0 then [a]
  else (List.range ((hex_distance a b).toNat + 1)).map (hexLinePointSpec a b)

/-! ### Entity records and game state

Positions are reals (they flow through `math.sqrt` during interpolation);
resources, timers and speeds are exact rationals; health and damage are
integers.  Dicts are association lists in insertion order. -/

noncomputable section

open scoped Classical

/-- Python's builtin `round` on a real value: round to nearest, ties to
even (the float behaviour of `round`). -/
def pyRound (x : ℝ) : ℤ :=
  if x - (⌊x⌋ : ℝ) < 1/2 then ⌊x⌋
  else if 1/2 < x - (⌊x⌋ : ℝ) then ⌊x⌋ + 1
  else if ⌊x⌋ % 2 = 0 then ⌊x⌋ else ⌊x⌋ + 1

/-- `math.atan2(y, x)`. -/
def pyAtan2 (y x : ℝ) : ℝ :=
  if 0 < x then Real.arctan (y / x)
  else if x < 0 then
    (if 0 ≤ y then Real.arctan (y / x) + Real.pi else Real.arctan (y / x) - Real.pi)
  else if 0 < y then Real.pi / 2
  else if y < 0 then -(Real.pi / 2)
  else 0

/-- The `Tank` dataclass.  The cosmetic `id`/`color` strings are omitted;
players are identified by numeric ids. -/
structure Tank where
  player_id : ℕ
  q : ℝ
  r : ℝ
  target_q : Option ℤ := none
  target_r : Option ℤ := none
  path : List (ℤ × ℤ) := []
  hp : ℤ := 100
  max_hp : ℤ := 100
  fuel : ℚ := 80
  ammo : ℚ := 50
  gears : ℚ := 0
  move_speed : ℚ := 5/2
  vision : ℤ := 3
  shell_damage : ℤ := 40
  ammo_cost : ℚ := 8
  alive : Bool := true
  respawn_timer : ℚ := 0
  facing : ℝ := 0
  upgrades : List (String × ℕ) := []
  last_shot : ℚ := 0
  score : ℤ := 0
  kills : ℕ := 0
  deaths : ℕ := 0
  fort_captures : ℕ := 0

/-- The `Fort` dataclass. -/
structure Fort where
  q : ℤ
  r : ℤ
  ftype : String
  owner : Option ℕ := none
  capture_progress : ℚ := 0
  capturing_player : Option ℕ := none
  was_owned : Bool := false

/-- The `Shell` dataclass. -/
structure Shell where
  owner_id : ℕ
  q : ℝ
  r : ℝ
  target_q : ℤ
  target_r : ℤ
  speed : ℚ := 5/2
  damage : ℤ := 40
  created : ℚ := 0

/-- A queued feed event (`killfeed` / `capturefeed`); the display names
and colors looked up from the player table are reduced to ids. -/
inductive GEvent where
  | killfeed (killer victim : ℕ) (ts : ℚ)
  | capturefeed (player : ℕ) (ftype : String) (ts : ℚ)

/-- The mutable simulation state owned by `GameState` (tanks/forts/shells
dicts, match clock, event queue, rematch votes). -/
structure GameState where
  tanks : List (ℕ × Tank)
  forts : List (ℕ × Fort)
  shells : List (ℕ × Shell)
  match_timer : ℚ := 600
  match_over : Bool := false
  post_match_timer : ℚ := 0
  pending_events : List GEvent := []
  rematch_votes : List ℕ := []
  tick : ℕ := 0

/-- `self.tanks.get(pid)` on the association list. -/
def lookupTank : List (ℕ × Tank) → ℕ → Option Tank
  | [], _ => none
  | e :: rest, pid => if e.1 = pid then some e.2 else lookupTank rest pid

/-- In-place mutation of the tank stored under `pid`. -/
def setTank (ts : List (ℕ × Tank)) (pid : ℕ) (t' : Tank) : List (ℕ × Tank) :=
  ts.map (fun e => if e.1 = pid then (pid, t') else e)

/-- `self.forts.get(fid)` on the association list. -/
def lookupFort : List (ℕ × Fort) → ℕ → Option Fort
  | [], _ => none
  | e :: rest, fid => if e.1 = fid then some e.2 else lookupFort rest fid

/-- `tank.upgrades.get(key, 0)`. -/
def upGet : List (String × ℕ) → String → ℕ
  | [], _ => 0
  | e :: rest, key => if e.1 = key then e.2 else upGet rest key

/-- `tank.upgrades[key] = lvl` (the key is inserted if absent). -/
def upSet (u : List (String × ℕ)) (key : String) (lvl : ℕ) : List (String × ℕ) :=
  if (u.map Prod.fst).contains key then
    u.map (fun e => if e.1 = key then (key, lvl) else e)
  else u ++ [(key, lvl)]

/-- `random.uniform(a, b)` realised from one injected sample `u ∈ [0,1]`. -/
def pyUniform (a b u : ℚ) : ℚ := a + (b - a) * u

/-! ### Command handlers -/

/-- `GameState.set_tank_path`. -/
def set_tank_path (st : GameState) (pid : ℕ) (path : List (ℤ × ℤ)) :
    Except String (List (ℤ × ℤ)) × GameState :=
  match lookupTank st.tanks pid with
  | none => (.error "tank not available", st)
  | some t =>
    if t.alive = false then (.error "tank not available", st)
    else if path = [] then
      let t1 : Tank := { t with path := [], target_q := none, target_r := none }
      (.ok [], { st with tanks := setTank st.tanks pid t1 })
    else
      let t1 : Tank := { t with path := path,
                                target_q := some (path.getLast!).1,
                                target_r := some (path.getLast!).2 }
      (.ok path, { st with tanks := setTank st.tanks pid t1 })

/-- `GameState.shoot`.  `now` is the injected `time.time()` reading and
`sid` the fresh shell id. -/
def shoot (st : GameState) (pid : ℕ) (target_q target_r : ℤ) (now : ℚ) (sid : ℕ) :
    Except String ℕ × GameState :=
  match lookupTank st.tanks pid with
  | none => (.error "tank not available", st)
  | some t =>
    if t.alive = false then (.error "tank not available", st)
    else if now - t.last_shot < 4/5 then (.error "cooldown", st)
    else
      -- `tank.last_shot = now` happens here, before the ammo / range checks
      let t1 : Tank := { t with last_shot := now }
      let st1 : GameState := { st with tanks := setTank st.tanks pid t1 }
      if t1.ammo < t1.ammo_cost then (.error "not enough ammo", st1)
      else if 5 + (upGet t1.upgrades "cannon" : ℤ) <
          hex_distance (pyRound t1.q, pyRound t1.r) (target_q, target_r) then
        (.error "out of range", st1)
      else
        let t2 : Tank := { t1 with ammo := t1.ammo - t1.ammo_cost }
        let sh : Shell :=
          { owner_id := pid, q := t1.q, r := t1.r,
            target_q := target_q, target_r := target_r, speed := 5/2,
            damage := t1.shell_damage + (upGet t1.upgrades "cannon" : ℤ) * 5,
            created := now }
        (.ok sid, { st with tanks := setTank st.tanks pid t2,
                            shells := st.shells ++ [(sid, sh)] })

/-- The valid upgrade categories (keys of `UPGRADE_COSTS`). -/
def upgradeKinds : List String := ["engine", "armor", "cannon", "sensor", "loader"]

/-- The escalating gear costs `[5, 10, 18]` for levels 1, 2, 3. -/
def lvlCosts : List ℚ := [5, 10, 18]

/-- The per-level stat delta of `GameState.upgrade`. -/
def applyUpgradeEffect (utype : String) (t : Tank) : Tank :=
  if utype = "engine" then { t with move_speed := t.move_speed + 2/5 }
  else if utype = "armor" then
    { t with max_hp := t.max_hp + 20, hp := min (t.hp + 20) (t.max_hp + 20) }
  else if utype = "cannon" then { t with shell_damage := t.shell_damage + 10 }
  else if utype = "sensor" then { t with vision := t.vision + 1 }
  else if utype = "loader" then { t with ammo_cost := max 2 (t.ammo_cost - 2) }
  else t

/-- `GameState.upgrade`. -/
def upgrade (st : GameState) (pid : ℕ) (utype : String) :
    Except String (String × ℕ) × GameState :=
  match lookupTank st.tanks pid with
  | none => (.error "no tank", st)
  | some t =>
    if upgradeKinds.contains utype = false then (.error "unknown upgrade", st)
    else if 3 ≤ upGet t.upgrades utype then (.error "max level reached", st)
    else if t.gears < lvlCosts.getD (upGet t.upgrades utype) 0 then
      (.error "not enough gears", st)
    else
      let t1 : Tank := { t with
        gears := t.gears - lvlCosts.getD (upGet t.upgrades utype) 0,
        upgrades := upSet t.upgrades utype (upGet t.upgrades utype + 1) }
      (.ok (utype, upGet t.upgrades utype + 1),
        { st with tanks := setTank st.tanks pid (applyUpgradeEffect utype t1) })

/-- `Tank` reinitialisation inside `GameState._reset_match` (position,
facing, targets and `last_shot` are deliberately not reset). -/
def resetTank (t : Tank) : Tank :=
  { t with hp := 100, max_hp := 100, fuel := 80, ammo := 50, gears := 0,
           move_speed := 5/2, vision := 3, shell_damage := 40, ammo_cost := 8,
           alive := true, respawn_timer := 0, path := [], upgrades := [],
           score := 0, kills := 0, deaths := 0, fort_captures := 0 }

/-- `GameState._reset_match` (`post_match_timer` is not touched). -/
def reset_match (st : GameState) : GameState :=
  { st with
    tanks := st.tanks.map (fun e => (e.1, resetTank e.2)),
    forts := st.forts.map (fun e => (e.1,
      { e.2 with owner := none, capture_progress := 0,
                 capturing_player := none, was_owned := false })),
    shells := [], pending_events := [],
    match_timer := 600, match_over := false, rematch_votes := [] }

/-- `GameState.cast_vote`. -/
def cast_vote (st : GameState) (pid : ℕ) : Except String (ℕ × ℕ) × GameState :=
  if st.match_over = false then (.error "match not over", st)
  else
    let votes : List ℕ :=
      if st.rematch_votes.contains pid then st.rematch_votes
      else st.rematch_votes ++ [pid]
    let st1 : GameState := { st with rematch_votes := votes }
    let st2 : GameState :=
      if st.tanks.length ≤ votes.length ∧ 0 < st.tanks.length then reset_match st1 else st1
    (.ok (votes.length, st.tanks.length), st2)

/-! ### Tick sub-systems -/

/-- One tank's movement inside `GameState._move_tanks`: dead tanks and
tanks with an empty path are skipped; otherwise the Euclidean distance to
the path head is compared with `speed·dt`; within that step the tank
snaps to the waypoint and pays the fuel cost (unless fuel is short, in
which case the path is dropped); otherwise it interpolates and re-aims. -/
def moveTankStep (dt : ℚ) (t : Tank) : Tank :=
  if t.alive = false then t
  else
    match t.path with
    | [] => t
    | (nq, nr) :: rest =>
      if Real.sqrt (((nq : ℝ) - t.q) * ((nq : ℝ) - t.q) +
            ((nr : ℝ) - t.r) * ((nr : ℝ) - t.r)) ≤ (t.move_speed : ℝ) * (dt : ℝ) then
        if t.fuel < 4 then { t with path := [], target_q := none, target_r := none }
        else
          if rest = [] then
            { t with fuel := t.fuel - 4, q := (nq : ℝ), r := (nr : ℝ), path := rest,
                     target_q := none, target_r := none }
          else { t with fuel := t.fuel - 4, q := (nq : ℝ), r := (nr : ℝ), path := rest }
      else
        { t with
          facing := pyAtan2 ((nr : ℝ) - t.r) ((nq : ℝ) - t.q),
          q := t.q + ((nq : ℝ) - t.q) /
            Real.sqrt (((nq : ℝ) - t.q) * ((nq : ℝ) - t.q) +
              ((nr : ℝ) - t.r) * ((nr : ℝ) - t.r)) * ((t.move_speed : ℝ) * (dt : ℝ)),
          r := t.r + ((nr : ℝ) - t.r) /
            Real.sqrt (((nq : ℝ) - t.q) * ((nq : ℝ) - t.q) +
              ((nr : ℝ) - t.r) * ((nr : ℝ) - t.r)) * ((t.move_speed : ℝ) * (dt : ℝ)) }

/-- `GameState._move_tanks`. -/
def move_tanks (dt : ℚ) (st : GameState) : GameState :=
  { st with tanks := st.tanks.map (fun e => (e.1, moveTankStep dt e.2)) }

/-- The random loot losses on death: for each resource the victim loses
`amount * ratio`, clamped so the result does not drop below the floor
(fuel 15, ammo 10, gears 0).  Returns the looted tank and `gear_lost`. -/
def lootVictim (rf ra rg : ℚ) (t : Tank) : Tank × ℚ :=
  ({ t with
      fuel := max 15 (t.fuel - max 0 (min (t.fuel * rf) (t.fuel - 15))),
      ammo := max 10 (t.ammo - max 0 (min (t.ammo * ra) (t.ammo - 10))),
      gears := max 0 (t.gears - max 0 (min (t.gears * rg) (t.gears - 0))) },
    max 0 (min (t.gears * rg) (t.gears - 0)))

/-- Stable insertion of a fort entry into a list sorted by strictly
descending key: the entry goes after every earlier entry whose key is at
least as large (matching Python's stable `sort(…, reverse=True)`). -/
def insertDesc (key : ℕ × Fort → ℝ) (e : ℕ × Fort) :
    List (ℕ × Fort) → List (ℕ × Fort)
  | [] => [e]
  | g :: gs => if key g < key e then e :: g :: gs else g :: insertDesc key e gs

/-- Stable sort by descending key (insertion sort; agrees with Python's
stable `list.sort(key=…, reverse=True)`). -/
def sortDesc (key : ℕ × Fort → ℝ) (l : List (ℕ × Fort)) : List (ℕ × Fort) :=
  l.foldl (fun acc e => insertDesc key e acc) []

/-- Forts owned by `pid`, in fort-dict order. -/
def fortsOwnedBy (pid : ℕ) : List (ℕ × Fort) → List (ℕ × Fort)
  | [] => []
  | e :: rest =>
    if e.2.owner = some pid then e :: fortsOwnedBy pid rest else fortsOwnedBy pid rest

/-- The fort-forfeiture block of `GameState._shell_impact`: when the dead
victim owns more than `FORT_RELEASE_KEEP = 2` forts, the owned forts are
sorted by descending `abs(f.q - tank.q) + abs(f.r - tank.r)` and every
fort after the first two is released (owner and progress cleared,
`was_owned` untouched). -/
def releaseForts (victim : Tank) (pid : ℕ) (forts : List (ℕ × Fort)) :
    List (ℕ × Fort) :=
  let victimForts := fortsOwnedBy pid forts
  if 2 < victimForts.length then
    let sorted := sortDesc
      (fun e => |((e.2.q : ℤ) : ℝ) - victim.q| + |((e.2.r : ℤ) : ℝ) - victim.r|)
      victimForts
    let releaseIds := (sorted.drop 2).map Prod.fst
    forts.map (fun e =>
      if releaseIds.contains e.1 then
        (e.1, { e.2 with owner := none, capture_progress := 0, capturing_player := none })
      else e)
  else forts

/-- The death branch of `GameState._shell_impact` for victim `pid` whose
hp (already diminished, `t1`) is `≤ 0`: mark dead, credit the shooter,
loot, release forts, queue the kill-feed event.  `k` indexes the random
stream; the loot draws happen only when the shooter still exists. -/
def impactDeath (rng : ℕ → ℚ) (k : ℕ) (now : ℚ) (shooterPid pid : ℕ) (t1 : Tank)
    (st : GameState) : GameState × ℕ :=
  let t2 : Tank := { t1 with hp := 0, alive := false, respawn_timer := 8, path := [] }
  match lookupTank st.tanks shooterPid with
  | none =>
    ({ st with tanks := setTank st.tanks pid t2,
               pending_events := st.pending_events ++ [.killfeed shooterPid pid now] }, k)
  | some sh0 =>
    let sh1 : Tank := { sh0 with score := sh0.score + 10, kills := sh0.kills + 1 }
    let t3 : Tank := { t2 with deaths := t2.deaths + 1 }
    let looted := lootVictim
      (pyUniform (1/5) (3/5) (rng k)) (pyUniform (1/5) (3/5) (rng (k+1)))
      (pyUniform (1/5) (3/5) (rng (k+2))) t3
    let g : ℚ := pyUniform 5 (max 5 looted.2) (rng (k+3))
    let sh2 : Tank := { sh1 with gears := min 99 (sh1.gears + g) }
    let st1 : GameState :=
      { st with tanks := setTank (setTank st.tanks pid looted.1) shooterPid sh2 }
    ({ st1 with forts := releaseForts looted.1 pid st1.forts,
                pending_events := st1.pending_events ++ [.killfeed shooterPid pid now] },
      k + 4)

/-- Processing of one tank id inside the `_shell_impact` loop: skip the
shooter and dead tanks; damage every living enemy within one hex of the
target cell; handle death. -/
def impactOne (sh : Shell) (rng : ℕ → ℚ) (now : ℚ) (acc : GameState × ℕ) (pid : ℕ) :
    GameState × ℕ :=
  match lookupTank acc.1.tanks pid with
  | none => acc
  | some t =>
    if pid = sh.owner_id then acc
    else if t.alive = false then acc
    else if hex_distance (pyRound t.q, pyRound t.r) (sh.target_q, sh.target_r) ≤ 1 then
      if t.hp - sh.damage ≤ 0 then
        impactDeath rng acc.2 now sh.owner_id pid ({ t with hp := t.hp - sh.damage }) acc.1
      else ({ acc.1 with tanks := setTank acc.1.tanks pid ({ t with hp := t.hp - sh.damage }) },
        acc.2)
    else acc

/-- `GameState._shell_impact`: iterate over the tank ids present when the
loop starts, threading the state. -/
def shell_impact (sh : Shell) (rng : ℕ → ℚ) (now : ℚ) (st : GameState) (k : ℕ) :
    GameState × ℕ :=
  (st.tanks.map Prod.fst).foldl (impactOne sh rng now) (st, k)

/-- One shell inside `GameState._move_shells`: impact (and drop the
shell) when the remaining distance is within this tick's travel or the
shell is older than 3 s, else advance it. -/
def shellStep (rng : ℕ → ℚ) (now dt : ℚ) (acc : GameState × ℕ × List (ℕ × Shell))
    (e : ℕ × Shell) : GameState × ℕ × List (ℕ × Shell) :=
  if Real.sqrt (((e.2.target_q : ℝ) - e.2.q) * ((e.2.target_q : ℝ) - e.2.q) +
        ((e.2.target_r : ℝ) - e.2.r) * ((e.2.target_r : ℝ) - e.2.r)) ≤
      (e.2.speed : ℝ) * (dt : ℝ) ∨ 3 < now - e.2.created then
    let res := shell_impact e.2 rng now acc.1 acc.2.1
    (res.1, res.2, acc.2.2)
  else
    (acc.1, acc.2.1, acc.2.2 ++ [(e.1,
      { e.2 with
        q := e.2.q + ((e.2.target_q : ℝ) - e.2.q) /
          Real.sqrt (((e.2.target_q : ℝ) - e.2.q) * ((e.2.target_q : ℝ) - e.2.q) +
            ((e.2.target_r : ℝ) - e.2.r) * ((e.2.target_r : ℝ) - e.2.r)) *
          ((e.2.speed : ℝ) * (dt : ℝ)),
        r := e.2.r + ((e.2.target_r : ℝ) - e.2.r) /
          Real.sqrt (((e.2.target_q : ℝ) - e.2.q) * ((e.2.target_q : ℝ) - e.2.q) +
            ((e.2.target_r : ℝ) - e.2.r) * ((e.2.target_r : ℝ) - e.2.r)) *
          ((e.2.speed : ℝ) * (dt : ℝ)) })])

/-- `GameState._move_shells`: impacted / expired shells are resolved in
dict order and removed after the loop; the rest advance. -/
def move_shells (rng : ℕ → ℚ) (k : ℕ) (now dt : ℚ) (st : GameState) : GameState × ℕ :=
  let res := st.shells.foldl (shellStep rng now dt) (st, k, [])
  ({ res.1 with shells := res.2.2 }, res.2.1)

/-- Effective capture time: `CAPTURE_TIME * (1.5 if was_owned else 1.0)`. -/
def effTime (f : Fort) : ℚ := 5 * (if f.was_owned then 3/2 else 1)

/-- The living tanks standing on the fort's cell, in dict order. -/
def occupantsOn (f : Fort) : List (ℕ × Tank) → List ℕ
  | [] => []
  | e :: rest =>
    if e.2.alive = true ∧ pyRound e.2.q = f.q ∧ pyRound e.2.r = f.r then
      e.1 :: occupantsOn f rest
    else occupantsOn f rest

/-- The per-fort body of `GameState._update_captures`, returning the new
fort together with the updated tank table and event queue. -/
def captureFortStep (now dt : ℚ) (tanks : List (ℕ × Tank)) (events : List GEvent)
    (f : Fort) : Fort × List (ℕ × Tank) × List GEvent :=
  match occupantsOn f tanks with
  | [] =>
    if f.capturing_player ≠ none ∧ 0 < f.capture_progress then
      ({ f with capture_progress := max 0 (f.capture_progress - dt * (1/2)),
                capturing_player :=
                  if max 0 (f.capture_progress - dt * (1/2)) = 0 then none
                  else f.capturing_player }, tanks, events)
    else (f, tanks, events)
  | [c] =>
    if f.owner = some c then (f, tanks, events)
    else if f.capturing_player = some c then
      if effTime f ≤ f.capture_progress + dt then
        ({ f with capture_progress := effTime f, owner := some c, was_owned := true,
                  capturing_player := none },
          setTank tanks c
            (match lookupTank tanks c with
             | none => { player_id := c, q := 0, r := 0 }
             | some t => { t with score := t.score + 5, fort_captures := t.fort_captures + 1 }),
          events ++ [.capturefeed c f.ftype now])
      else ({ f with capture_progress := f.capture_progress + dt }, tanks, events)
    else
      ({ f with capturing_player := some c,
                capture_progress := max 0 (f.capture_progress - dt * (3/2)) }, tanks, events)
  | _ :: _ :: _ =>
    ({ f with capture_progress := max 0 (f.capture_progress - dt * 2) }, tanks, events)

/-- `GameState._update_captures`: fold over the forts in dict order,
threading tanks and the event queue. -/
def update_captures (now dt : ℚ) (st : GameState) : GameState :=
  let res := st.forts.foldl
    (fun (acc : List (ℕ × Fort) × List (ℕ × Tank) × List GEvent) e =>
      let r := captureFortStep now dt acc.2.1 acc.2.2 e.2
      (acc.1 ++ [(e.1, r.1)], r.2.1, r.2.2))
    ([], st.tanks, st.pending_events)
  { st with forts := res.1, tanks := res.2.1, pending_events := res.2.2 }

/-- One fort type's contribution inside `GameState._generate_resources`
(mixed forts feed all three pools; each pool is capped). -/
def genStep (dt : ℚ) (t : Tank) (ftype : String) : Tank :=
  let t1 := if ftype = "fuel" ∨ ftype = "mixed" then
    { t with fuel := min 120 (t.fuel + (6/5) * dt) } else t
  let t2 := if ftype = "ammo" ∨ ftype = "mixed" then
    { t1 with ammo := min 100 (t1.ammo + (9/10) * dt) } else t1
  if ftype = "gear" ∨ ftype = "mixed" then
    { t2 with gears := min 99 (t2.gears + (1/10) * dt) } else t2

/-- `GameState._generate_resources`: every living tank receives, for each
fort it owns (in fort-dict order), that fort's per-type credit.  Distinct
players' credits are independent, so the per-player grouping of the
source reduces to this per-tank fold. -/
def generate_resources (dt : ℚ) (st : GameState) : GameState :=
  { st with tanks := st.tanks.map (fun e =>
      if e.2.alive = true then
        (e.1, ((fortsOwnedBy e.1 st.forts).map (fun x => x.2.ftype)).foldl (genStep dt) e.2)
      else e) }

/-- The fixed spawn slots. -/
def spawnSlots : List (ℤ × ℤ) := [(0,4), (-4,0), (0,-4), (4,-4), (4,0), (-4,4)]

/-- One tank inside `GameState._check_respawns`: dead tanks count down
and resurrect at a randomly chosen spawn slot at full health. -/
def respawnStep (rchoice : ℕ → ℕ) (dt : ℚ) (acc : List (ℕ × Tank) × ℕ) (e : ℕ × Tank) :
    List (ℕ × Tank) × ℕ :=
  if e.2.alive = true then (acc.1 ++ [e], acc.2)
  else
    if e.2.respawn_timer - dt ≤ 0 then
      (acc.1 ++ [(e.1,
        { e.2 with alive := true, hp := e.2.max_hp, respawn_timer := 0,
                   q := ((spawnSlots.getD (rchoice acc.2 % 6) (0, 4)).1 : ℝ),
                   r := ((spawnSlots.getD (rchoice acc.2 % 6) (0, 4)).2 : ℝ),
                   path := [] })], acc.2 + 1)
    else (acc.1 ++ [(e.1, { e.2 with respawn_timer := e.2.respawn_timer - dt })], acc.2)

/-- `GameState._check_respawns`. -/
def check_respawns (rchoice : ℕ → ℕ) (kc : ℕ) (dt : ℚ) (st : GameState) :
    GameState × ℕ :=
  let res := st.tanks.foldl (respawnStep rchoice dt) ([], kc)
  ({ st with tanks := res.1 }, res.2)

/-- `GameState._end_match`. -/
def end_match (st : GameState) : GameState :=
  { st with match_over := true, post_match_timer := 10 }

/-- `GameState.tick_update`: match clock, then (while the match is
active) movement, ballistics, captures, resource generation and
respawns, in that order.  `rng` / `rchoice` are the injected random
streams with cursors `ku` / `kc`; `now` is the injected wall clock. -/
def tick_update (rng : ℕ → ℚ) (rchoice : ℕ → ℕ) (ku kc : ℕ) (now dt : ℚ)
    (st : GameState) : GameState × ℕ × ℕ :=
  let st0 : GameState :=
    if st.match_over = false then
      if st.match_timer - dt ≤ 0 then end_match ({ st with match_timer := 0 })
      else { st with match_timer := st.match_timer - dt }
    else st
  if st0.match_over = true then
    if st0.post_match_timer - dt ≤ 0 then
      (reset_match ({ st0 with post_match_timer := st0.post_match_timer - dt }), ku, kc)
    else ({ st0 with post_match_timer := st0.post_match_timer - dt }, ku, kc)
  else
    let st1 := move_tanks dt st0
    let res2 := move_shells rng ku now dt st1
    let st3 := update_captures now dt res2.1
    let st4 := generate_resources dt st3
    let res5 := check_respawns rchoice kc dt st4
    ({ res5.1 with tick := res5.1.tick + 1 }, res2.2, res5.2)

/-! ### Concrete states used by counterexamples and witnesses -/

/-- A lone origin tank with the given ammo and last-shot time. -/
def oTank (ammo last_shot : ℚ) : Tank :=
  { player_id := 0, q := ((0 : ℤ) : ℝ), r := ((0 : ℤ) : ℝ), ammo := ammo,
    last_shot := last_shot }

/-- One-tank state with 5 ammo (below the 8 per-shot cost). -/
def c1state : GameState := { tanks := [(0, oTank 5 0)], forts := [], shells := [] }

/-- Victim about to die at the origin, owning three forts. -/
def c2victim : Tank := { player_id := 0, q := ((0 : ℤ) : ℝ), r := ((0 : ℤ) : ℝ), hp := 10 }

/-- The shooter, away from the blast. -/
def c2shooter : Tank := { player_id := 1, q := ((5 : ℤ) : ℝ), r := ((5 : ℤ) : ℝ) }

/-- A fort at `(q, 0)` owned by player 0. -/
def c2fort (q : ℤ) : Fort := { q := q, r := 0, ftype := "fuel", owner := some 0, was_owned := true }

/-- Two tanks; player 0 owns forts at distances 1, 2, 3 from its death spot. -/
def c2state : GameState :=
  { tanks := [(0, c2victim), (1, c2shooter)],
    forts := [(0, c2fort 1), (1, c2fort 2), (2, c2fort 3)], shells := [] }

/-- A lethal shell aimed at the origin, owned by player 1. -/
def c2shell : Shell :=
  { owner_id := 1, q := ((5 : ℤ) : ℝ), r := ((5 : ℤ) : ℝ), target_q := 0, target_r := 0 }

/-- A living tank standing on cell `(2, 2)`. -/
def c3tank : Tank := { player_id := 0, q := ((2 : ℤ) : ℝ), r := ((2 : ℤ) : ℝ) }

/-- A never-owned fort at `(2, 2)`, contested by player 0, at progress 4.8. -/
def c3fort : Fort :=
  { q := 2, r := 2, ftype := "ammo", capture_progress := 24/5, capturing_player := some 0 }

/-- One tank on one almost-captured fort. -/
def c3state : GameState := { tanks := [(0, c3tank)], forts := [(0, c3fort)], shells := [] }

/-- A quiet state (one idle tank, no forts or shells) for whole-tick runs. -/
def c4state : GameState := { tanks := [(0, oTank 50 0)], forts := [], shells := [] }

/-- A tank at the origin heading for the adjacent cell `(0, 1)`. -/
def c5tank : Tank :=
  { player_id := 0, q := ((0 : ℤ) : ℝ), r := ((0 : ℤ) : ℝ), path := [(0, 1)] }

/-- The chain of states of the C6 scenario: starting from 50 ammo, shot
`i` is fired at time `10 + i` (so the 0.8 s cooldown is always spent). -/
def c6state : ℕ → GameState
  | 0 => { tanks := [(0, oTank 50 0)], forts := [], shells := [] }
  | i + 1 => (shoot (c6state i) 0 0 0 (10 + (i : ℚ)) i).2

/-- Victim about to die at the origin. -/
def c7victim : Tank := { player_id := 0, q := ((0 : ℤ) : ℝ), r := ((0 : ℤ) : ℝ), hp := 10 }

/-- The shooter of the C7 witness. -/
def c7shooter : Tank := { player_id := 1, q := ((5 : ℤ) : ℝ), r := ((5 : ℤ) : ℝ) }

/-- Two-tank state for the C7 witness. -/
def c7state : GameState :=
  { tanks := [(0, c7victim), (1, c7shooter)], forts := [], shells := [] }

/-- A lethal shell aimed at the origin, owned by player 1. -/
def c7shell : Shell :=
  { owner_id := 1, q := ((5 : ℤ) : ℝ), r := ((5 : ℤ) : ℝ), target_q := 0, target_r := 0 }

/-- A dead tank with 20 gears and no upgrades yet. -/
def c10tank : Tank :=
  { player_id := 0, q := ((0 : ℤ) : ℝ), r := ((0 : ℤ) : ℝ), alive := false, gears := 20 }

/-- State for the C10 witness. -/
def c10state : GameState := { tanks := [(0, c10tank)], forts := [], shells := [] }

/-- The per-tank bounds of the spec: health within `[0, max_hp]`,
fuel/ammo/gears within `[0, cap]` (caps 120 / 100 / 99). -/
def TankOK (t : Tank) : Prop :=
  0 ≤ t.hp ∧ t.hp ≤ t.max_hp ∧ 0 ≤ t.fuel ∧ t.fuel ≤ 120 ∧
  0 ≤ t.ammo ∧ t.ammo ≤ 100 ∧ 0 ≤ t.gears ∧ t.gears ≤ 99

/-- Every tank in the table satisfies `TankOK`. -/
def TanksOK (ts : List (ℕ × Tank)) : Prop := ∀ pid t, (pid, t) ∈ ts → TankOK t

/-- Every in-flight shell has non-negative damage (true of every shell
the program creates, since `shoot` uses `shell_damage + 5·cannon ≥ 0`). -/
def ShellsOK (ss : List (ℕ × Shell)) : Prop := ∀ sid sh, (sid, sh) ∈ ss → 0 ≤ sh.damage

end

/-! ### Theorems -/

theorem two_mul_hex_distance (a b : ℤ × ℤ) :
    2 * hex_distance a b = |a.1 - b.1| + |a.1 + a.2 - b.1 - b.2| + |a.2 - b.2| := by
  unfold hex_distance
  rcases abs_cases (a.1 - b.1) with ⟨h1, _⟩ | ⟨h1, _⟩ <;>
    rcases abs_cases (a.1 + a.2 - b.1 - b.2) with ⟨h2, _⟩ | ⟨h2, _⟩ <;>
    rcases abs_cases (a.2 - b.2) with ⟨h3, _⟩ | ⟨h3, _⟩ <;>
    rw [h1, h2, h3] <;> omega

theorem hex_distance_nonneg (a b : ℤ × ℤ) : 0 ≤ hex_distance a b := by
  have h := two_mul_hex_distance a b
  have n1 : 0 ≤ |a.1 - b.1| := abs_nonneg _
  have n2 : 0 ≤ |a.1 + a.2 - b.1 - b.2| := abs_nonneg _
  have n3 : 0 ≤ |a.2 - b.2| := abs_nonneg _
  omega

theorem hex_distance_comm (a b : ℤ × ℤ) : hex_distance a b = hex_distance b a := by
  unfold hex_distance
  rw [abs_sub_comm (a.1) (b.1), abs_sub_comm (a.2) (b.2),
    show a.1 + a.2 - b.1 - b.2 = -(b.1 + b.2 - a.1 - a.2) by ring, abs_neg]

theorem hex_distance_eq_zero_iff (a b : ℤ × ℤ) : hex_distance a b = 0 ↔ a = b := by
  have h := two_mul_hex_distance a b
  constructor
  · intro h0
    rcases abs_cases (a.1 - b.1) with ⟨h1, g1⟩ | ⟨h1, g1⟩ <;>
      rcases abs_cases (a.1 + a.2 - b.1 - b.2) with ⟨h2, g2⟩ | ⟨h2, g2⟩ <;>
      rcases abs_cases (a.2 - b.2) with ⟨h3, g3⟩ | ⟨h3, g3⟩ <;>
      [skip; skip; skip; skip; skip; skip; skip; skip] <;>
      · have e1 : a.1 = b.1 := by omega
        have e2 : a.2 = b.2 := by omega
        exact Prod.ext e1 e2
  · rintro rfl
    unfold hex_distance
    simp

theorem hex_distance_triangle (a b c : ℤ × ℤ) :
    hex_distance a c ≤ hex_distance a b + hex_distance b c := by
  have hab := two_mul_hex_distance a b
  have hbc := two_mul_hex_distance b c
  have hac := two_mul_hex_distance a c
  have t1 : |a.1 - c.1| ≤ |a.1 - b.1| + |b.1 - c.1| := abs_sub_le _ _ _
  have t3 : |a.2 - c.2| ≤ |a.2 - b.2| + |b.2 - c.2| := abs_sub_le _ _ _
  have t2 : |a.1 + a.2 - c.1 - c.2| ≤ |a.1 + a.2 - b.1 - b.2| + |b.1 + b.2 - c.1 - c.2| := by
    have := abs_sub_le (a.1 + a.2) (b.1 + b.2) (c.1 + c.2)
    rw [show a.1 + a.2 - (c.1 + c.2) = a.1 + a.2 - c.1 - c.2 by ring,
      show a.1 + a.2 - (b.1 + b.2) = a.1 + a.2 - b.1 - b.2 by ring,
      show b.1 + b.2 - (c.1 + c.2) = b.1 + b.2 - c.1 - c.2 by ring] at this
    exact this
  omega

theorem listSumMapRange (g : ℕ → ℕ) (n : ℕ) :
    ((List.range n).map g).sum = ∑ i in Finset.range n, g i := rfl

theorem intRange_length (lo hi : ℤ) : (intRange lo hi).length = (hi - lo).toNat := by
  simp [intRange]

theorem hex_range_length (c : ℤ × ℤ) (k : ℕ) :
    (hex_range c (k : ℤ)).length = 1 + 3 * k * (k + 1) := by
  unfold hex_range intRange
  rw [List.length_flatMap, List.map_map]
  have hm : ((k : ℤ) + 1 - -(k : ℤ)).toNat = 2 * k + 1 := by omega
  rw [hm, listSumMapRange]
  rw [Finset.sum_congr rfl (g := fun i => k + 1 + min i (2 * k - i)) ?_]
  · -- closed form of the sum
    rw [Finset.sum_add_distrib, Finset.sum_const, Finset.card_range, smul_eq_mul]
    have hsplit : ∑ i in Finset.range (2 * k + 1), min i (2 * k - i)
        = (∑ i in Finset.range (k + 1), i) + (∑ j in Finset.range k, j) := by
      rw [show Finset.range (2 * k + 1) = Finset.Ico 0 (2 * k + 1) from congrFun Finset.range_eq_Ico _,
        ← Finset.sum_Ico_consecutive (fun i => min i (2 * k - i))
          (Nat.zero_le (k + 1)) (by omega : k + 1 ≤ 2 * k + 1)]
      congr 1
      · rw [← congrFun Finset.range_eq_Ico (k+1)]
        refine Finset.sum_congr rfl ?_
        intro i hi
        simp only [Finset.mem_range] at hi
        omega
      · rw [Finset.sum_Ico_eq_sum_range]
        rw [show 2 * k + 1 - (k + 1) = k by omega]
        have h1 : ∀ j ∈ Finset.range k,
            min (k + 1 + j) (2 * k - (k + 1 + j)) = k - 1 - j := by
          intro j hj
          simp only [Finset.mem_range] at hj
          omega
        rw [Finset.sum_congr rfl h1]
        exact Finset.sum_range_reflect (fun x => x) k
    rw [hsplit]
    have hA := Finset.sum_range_id_mul_two (k + 1)
    have hB := Finset.sum_range_id_mul_two k
    set A := ∑ i in Finset.range (k + 1), i with hAdef
    set B := ∑ j in Finset.range k, j with hBdef
    rcases Nat.eq_zero_or_pos k with hk | hk
    · subst hk; simp [hAdef, hBdef]
    · have h2 : 2 * ((2 * k + 1) * (k + 1) + (A + B)) = 2 * (1 + 3 * k * (k + 1)) := by
        have e1 : 2 * ((2 * k + 1) * (k + 1) + (A + B))
            = 2 * ((2 * k + 1) * (k + 1)) + A * 2 + B * 2 := by ring
        rw [e1, hA, hB]
        cases k with
        | zero => omega
        | succ m => simp only [Nat.succ_sub_one]; ring
      omega
  · intro i hi
    simp only [Finset.mem_range] at hi
    simp only [Function.comp, List.length_map, List.length_range]
    omega

theorem intRange_nodup (lo hi : ℤ) : (intRange lo hi).Nodup := by
  refine List.Nodup.map ?_ (List.nodup_range _)
  intro i j hij
  simpa using hij

theorem hex_range_nodup (c : ℤ × ℤ) (radius : ℤ) : (hex_range c radius).Nodup := by
  unfold hex_range
  refine List.nodup_flatMap.2 ⟨?_, ?_⟩
  · intro dq _
    refine List.Nodup.map ?_ (intRange_nodup _ _)
    intro i j hij
    have := congrArg Prod.snd hij
    simp only at this
    omega
  · have hnd := intRange_nodup (-radius) (radius + 1)
    refine List.Pairwise.imp ?_ hnd
    intro dq dq' hne x hx hx'
    simp only [List.mem_map] at hx hx'
    obtain ⟨dr, _, rfl⟩ := hx
    obtain ⟨dr', _, h2⟩ := hx'
    have := congrArg Prod.fst h2
    simp only at this
    omega

theorem pyRoundQ_A : pyRoundQ (999999/2000000 : ℚ) = 0 := by unfold pyRoundQ; norm_num

theorem pyRoundQ_B : pyRoundQ (-(999999/1000000) : ℚ) = -1 := by unfold pyRoundQ; norm_num

theorem pyRoundQ_C : pyRoundQ (-(999999/2000000 : ℚ) - -(999999/1000000)) = 0 := by
  unfold pyRoundQ; norm_num

theorem dxE_cex : dxE (999999/2000000) (-(999999/1000000)) = 999999/2000000 := by
  unfold dxE; rw [pyRoundQ_A]; norm_num

theorem dyE_cex : dyE (999999/2000000) (-(999999/1000000)) = 999999/2000000 := by
  unfold dyE; rw [pyRoundQ_C]; norm_num

theorem dzE_cex : dzE (999999/2000000) (-(999999/1000000)) = 1/1000000 := by
  unfold dzE; rw [pyRoundQ_B]; norm_num

theorem cubeRound_cex : cubeRound (999999/2000000) (-(999999/1000000)) = (0, -1) := by
  unfold cubeRound
  rw [dxE_cex, dyE_cex, dzE_cex, pyRoundQ_A, pyRoundQ_B]
  norm_num

theorem cubeRoundSpec_cex : cubeRoundSpec (999999/2000000) (-(999999/1000000)) = (1, -1) := by
  unfold cubeRoundSpec
  rw [dxE_cex, dyE_cex, dzE_cex, pyRoundQ_B, pyRoundQ_C]
  norm_num

theorem hd_cex : hex_distance (0, 0) (999997, -2000000) = 2000000 := by decide

theorem hexLinePoint_cex : hexLinePoint (0, 0) (999997, -2000000) 1 = (0, -1) := by
  unfold hexLinePoint
  rw [hd_cex]
  rw [show (((0, 0) : ℤ × ℤ).1 : ℚ) + ((((999997, -2000000) : ℤ × ℤ).1 : ℚ) - (((0, 0) : ℤ × ℤ).1 : ℚ)) *
      (((1 : ℕ) : ℚ) / (((2000000 : ℤ) : ℚ))) + 1/1000000 = 999999/2000000 by push_cast; norm_num]
  rw [show (((0, 0) : ℤ × ℤ).2 : ℚ) + ((((999997, -2000000) : ℤ × ℤ).2 : ℚ) - (((0, 0) : ℤ × ℤ).2 : ℚ)) *
      (((1 : ℕ) : ℚ) / (((2000000 : ℤ) : ℚ))) + 1/1000000 = -(999999/1000000) by push_cast; norm_num]
  exact cubeRound_cex

theorem hexLinePointSpec_cex : hexLinePointSpec (0, 0) (999997, -2000000) 1 = (1, -1) := by
  unfold hexLinePointSpec
  rw [hd_cex]
  rw [show (((0, 0) : ℤ × ℤ).1 : ℚ) + ((((999997, -2000000) : ℤ × ℤ).1 : ℚ) - (((0, 0) : ℤ × ℤ).1 : ℚ)) *
      (((1 : ℕ) : ℚ) / (((2000000 : ℤ) : ℚ))) + 1/1000000 = 999999/2000000 by push_cast; norm_num]
  rw [show (((0, 0) : ℤ × ℤ).2 : ℚ) + ((((999997, -2000000) : ℤ × ℤ).2 : ℚ) - (((0, 0) : ℤ × ℤ).2 : ℚ)) *
      (((1 : ℕ) : ℚ) / (((2000000 : ℤ) : ℚ))) + 1/1000000 = -(999999/1000000) by push_cast; norm_num]
  exact cubeRoundSpec_cex

theorem c8_counterexample :
    (hex_line (0, 0) (999997, -2000000))[1]? = some ((0 : ℤ), (-1 : ℤ)) ∧
    (hexLineSpec (0, 0) (999997, -2000000))[1]? = some ((1 : ℤ), (-1 : ℤ)) ∧
    ((0 : ℤ), (-1 : ℤ)) ≠ ((1 : ℤ), (-1 : ℤ)) := by
  refine ⟨?_, ?_, by decide⟩
  · unfold hex_line
    rw [if_neg (by decide), hd_cex]
    rw [show ((2000000 : ℤ).toNat + 1) = 2000001 by decide]
    rw [List.getElem?_map, List.getElem?_range]
    rw [Option.map_some', hexLinePoint_cex]
    norm_num
  · unfold hexLineSpec
    rw [if_neg (by decide), hd_cex]
    rw [show ((2000000 : ℤ).toNat + 1) = 2000001 by decide]
    rw [List.getElem?_map, List.getElem?_range]
    rw [Option.map_some', hexLinePointSpec_cex]
    norm_num

theorem c8_amended_no_tie (x z : ℚ)
    (h1 : dxE x z ≠ dyE x z) (h2 : dyE x z ≠ dzE x z) (h3 : dxE x z ≠ dzE x z) :
    cubeRound x z = cubeRoundSpec x z := by
  unfold cubeRound cubeRoundSpec
  have e1 : (dyE x z < dxE x z ∧ dzE x z < dxE x z) ↔
      (dxE x z ≥ dyE x z ∧ dxE x z ≥ dzE x z) := by
    constructor
    · rintro ⟨a, b⟩; exact ⟨le_of_lt a, le_of_lt b⟩
    · rintro ⟨a, b⟩; exact ⟨lt_of_le_of_ne a h1.symm, lt_of_le_of_ne b h3.symm⟩
  have e2 : (dzE x z < dyE x z) ↔ (dyE x z ≥ dzE x z) := by
    constructor
    · exact le_of_lt
    · intro a; exact lt_of_le_of_ne a h2.symm
  rw [if_congr e1 rfl (if_congr e2 rfl rfl)]

theorem c8_amended_no_tie_witness :
    dxE (1/4) (1/3) ≠ dyE (1/4) (1/3) ∧ dyE (1/4) (1/3) ≠ dzE (1/4) (1/3) ∧
    dxE (1/4) (1/3) ≠ dzE (1/4) (1/3) ∧ cubeRound (1/4) (1/3) = cubeRoundSpec (1/4) (1/3) := by
  have ha : dxE (1/4) (1/3) = 1/4 := by
    unfold dxE
    rw [show pyRoundQ (1/4) = 0 from by unfold pyRoundQ; norm_num]
    norm_num
  have hb : dyE (1/4) (1/3) = 5/12 := by
    unfold dyE
    rw [show pyRoundQ (-(1/4 : ℚ) - 1/3) = -1 from by unfold pyRoundQ; norm_num]
    norm_num
  have hc : dzE (1/4) (1/3) = 1/3 := by
    unfold dzE
    rw [show pyRoundQ (1/3 : ℚ) = 0 from by unfold pyRoundQ; norm_num]
    norm_num
  refine ⟨by rw [ha, hb]; norm_num, by rw [hb, hc]; norm_num, by rw [ha, hc]; norm_num, ?_⟩
  exact c8_amended_no_tie _ _ (by rw [ha, hb]; norm_num) (by rw [hb, hc]; norm_num)
    (by rw [ha, hc]; norm_num)

theorem c9_distance_and_range :
    (∀ a b c : ℤ × ℤ, 0 ≤ hex_distance a b ∧ hex_distance a b = hex_distance b a ∧
      (hex_distance a b = 0 ↔ a = b) ∧
      hex_distance a c ≤ hex_distance a b + hex_distance b c) ∧
    (∀ (c : ℤ × ℤ) (k : ℕ), (hex_range c (k : ℤ)).length = 1 + 3 * k * (k + 1) ∧
      (hex_range c (k : ℤ)).Nodup) := by
  constructor
  · intro a b c
    exact ⟨hex_distance_nonneg a b, hex_distance_comm a b, hex_distance_eq_zero_iff a b,
      hex_distance_triangle a b c⟩
  · intro c k
    exact ⟨hex_range_length c k, hex_range_nodup c (k : ℤ)⟩

theorem pyRound_intCast (n : ℤ) : pyRound ((n : ℤ) : ℝ) = n := by
  unfold pyRound
  rw [Int.floor_intCast]
  norm_num

theorem lookupTank_setTank_self (ts : List (ℕ × Tank)) (pid : ℕ) (t t' : Tank)
    (h : lookupTank ts pid = some t) :
    lookupTank (setTank ts pid t') pid = some t' := by
  induction ts with
  | nil => simp [lookupTank] at h
  | cons e rest ih =>
    simp only [setTank, List.map_cons]
    by_cases he : e.1 = pid
    · simp [lookupTank, he]
    · rw [lookupTank, if_neg he] at h
      rw [if_neg he, lookupTank, if_neg he]
      exact ih h

theorem lookupTank_setTank_other (ts : List (ℕ × Tank)) (pid pid' : ℕ) (t' : Tank)
    (h : pid' ≠ pid) :
    lookupTank (setTank ts pid t') pid' = lookupTank ts pid' := by
  have hpp : ¬ (pid = pid') := fun hc => h hc.symm
  induction ts with
  | nil => simp [lookupTank, setTank]
  | cons e rest ih =>
    simp only [setTank, List.map_cons] at ih ⊢
    by_cases he : e.1 = pid
    · have hne : ¬ (e.1 = pid') := by rw [he]; exact fun hc => h hc.symm
      rw [if_pos he, lookupTank, if_neg hpp, lookupTank, if_neg hne]
      exact ih
    · rw [if_neg he, lookupTank, lookupTank]
      by_cases he' : e.1 = pid'
      · rw [if_pos he', if_pos he']
      · rw [if_neg he', if_neg he']
        exact ih

theorem upGet_map_replace (u : List (String × ℕ)) (key : String) (lvl : ℕ) :
    upGet (u.map (fun e => if e.1 = key then (key, lvl) else e)) key
      = if (u.map Prod.fst).contains key then lvl else 0 := by
  induction u with
  | nil => simp [upGet]
  | cons e rest ih =>
    simp only [List.map_cons]
    by_cases he : e.1 = key
    · simp [upGet, he]
    · rw [if_neg he, upGet, if_neg he, ih]
      have hcond : ((e.1 :: List.map Prod.fst rest).contains key = true)
          ↔ ((List.map Prod.fst rest).contains key = true) := by
        constructor
        · intro hc
          rw [List.contains_cons, Bool.or_eq_true] at hc
          rcases hc with hc | hc
          · exact absurd (beq_iff_eq.mp hc).symm he
          · exact hc
        · intro hc
          rw [List.contains_cons, Bool.or_eq_true]
          exact Or.inr hc
      exact (if_congr hcond rfl rfl).symm

theorem upGet_append_single (u : List (String × ℕ)) (key : String) (lvl : ℕ)
    (h : (u.map Prod.fst).contains key = false) :
    upGet (u ++ [(key, lvl)]) key = lvl := by
  induction u with
  | nil => simp [upGet]
  | cons e rest ih =>
    rw [List.map_cons, List.contains_cons, Bool.or_eq_false_iff] at h
    have he : e.1 ≠ key := by
      intro hc
      rw [hc] at h
      simp at h
    rw [List.cons_append, upGet, if_neg he]
    exact ih h.2

theorem upGet_upSet_self (u : List (String × ℕ)) (key : String) (lvl : ℕ) :
    upGet (upSet u key lvl) key = lvl := by
  unfold upSet
  by_cases hc : (u.map Prod.fst).contains key
  · rw [if_pos hc, upGet_map_replace, if_pos hc]
  · rw [if_neg hc, upGet_append_single]
    simpa using hc

theorem applyUpgradeEffect_alive (utype : String) (t : Tank) :
    (applyUpgradeEffect utype t).alive = t.alive := by
  unfold applyUpgradeEffect
  split_ifs <;> rfl

theorem applyUpgradeEffect_gears (utype : String) (t : Tank) :
    (applyUpgradeEffect utype t).gears = t.gears := by
  unfold applyUpgradeEffect
  split_ifs <;> rfl

theorem applyUpgradeEffect_upgrades (utype : String) (t : Tank) :
    (applyUpgradeEffect utype t).upgrades = t.upgrades := by
  unfold applyUpgradeEffect
  split_ifs <;> rfl

theorem applyUpgradeEffect_setAlive (utype : String) (t : Tank) (b : Bool) :
    applyUpgradeEffect utype ({ t with alive := b }) =
      { applyUpgradeEffect utype t with alive := b } := by
  unfold applyUpgradeEffect
  split_ifs <;> rfl

/-- C10: `GameState.upgrade` never checks `tank.alive`: a dead tank with
enough gears and a below-max level in a valid category upgrades
successfully — gears are debited, the level rises, the stat delta
applies — exactly as the same tank would while alive (for either value
of the alive flag the command returns the same success and produces the
same tank up to that flag). -/
theorem c10_upgrade_ignores_alive (st : GameState) (pid : ℕ) (utype : String) (t : Tank)
    (ht : lookupTank st.tanks pid = some t)
    (hdead : t.alive = false)
    (hvalid : upgradeKinds.contains utype = true)
    (hlvl : upGet t.upgrades utype < 3)
    (hgears : lvlCosts.getD (upGet t.upgrades utype) 0 ≤ t.gears) :
    (upgrade st pid utype).1 = .ok (utype, upGet t.upgrades utype + 1) ∧
    (∃ t', lookupTank (upgrade st pid utype).2.tanks pid = some t' ∧
      t'.alive = false ∧
      t'.gears = t.gears - lvlCosts.getD (upGet t.upgrades utype) 0 ∧
      upGet t'.upgrades utype = upGet t.upgrades utype + 1 ∧
      (utype = "engine" → t'.move_speed = t.move_speed + 2/5) ∧
      (utype = "armor" → t'.max_hp = t.max_hp + 20 ∧ t'.hp = min (t.hp + 20) (t.max_hp + 20)) ∧
      (utype = "cannon" → t'.shell_damage = t.shell_damage + 10) ∧
      (utype = "sensor" → t'.vision = t.vision + 1) ∧
      (utype = "loader" → t'.ammo_cost = max 2 (t.ammo_cost - 2)) ∧
      (∀ b : Bool,
        (upgrade { st with tanks := setTank st.tanks pid ({ t with alive := b }) } pid utype).1
          = .ok (utype, upGet t.upgrades utype + 1) ∧
        lookupTank (upgrade { st with tanks := setTank st.tanks pid ({ t with alive := b }) }
            pid utype).2.tanks pid = some ({ t' with alive := b }))) := by
  have hc1 : ¬ (upgradeKinds.contains utype = false) := by
    intro hc
    rw [hvalid] at hc
    exact absurd hc (by decide)
  have hc2 : ¬ (3 ≤ upGet t.upgrades utype) := by omega
  have hc3 : ¬ (t.gears < lvlCosts.getD (upGet t.upgrades utype) 0) := not_lt.mpr hgears
  constructor
  · unfold upgrade
    rw [ht]
    simp only [if_neg hc1, if_neg hc2, if_neg hc3]
  · refine ⟨applyUpgradeEffect utype
      ({ t with gears := t.gears - lvlCosts.getD (upGet t.upgrades utype) 0,
                upgrades := upSet t.upgrades utype (upGet t.upgrades utype + 1) }), ?_, ?_, ?_, ?_,
      ?_, ?_, ?_, ?_, ?_, ?_⟩
    · unfold upgrade
      rw [ht]
      simp only [if_neg hc1, if_neg hc2, if_neg hc3]
      exact lookupTank_setTank_self st.tanks pid t _ ht
    · rw [applyUpgradeEffect_alive]
      exact hdead
    · rw [applyUpgradeEffect_gears]
    · rw [applyUpgradeEffect_upgrades]
      exact upGet_upSet_self _ _ _
    · rintro rfl
      simp [applyUpgradeEffect]
    · rintro rfl
      simp [applyUpgradeEffect]
    · rintro rfl
      simp [applyUpgradeEffect]
    · rintro rfl
      simp [applyUpgradeEffect]
    · rintro rfl
      simp [applyUpgradeEffect]
    · intro b
      have ht' : lookupTank (setTank st.tanks pid ({ t with alive := b })) pid
          = some ({ t with alive := b }) := lookupTank_setTank_self st.tanks pid t _ ht
      constructor
      · unfold upgrade
        rw [ht']
        simp only [if_neg hc1, if_neg hc2, if_neg hc3]
      · unfold upgrade
        rw [ht']
        simp only [if_neg hc1, if_neg hc2, if_neg hc3]
        rw [lookupTank_setTank_self _ _ ({ t with alive := b }) _ ht']
        unfold applyUpgradeEffect
        split_ifs <;> rfl

theorem c10_witness :
    lookupTank c10state.tanks 0 = some c10tank ∧ c10tank.alive = false ∧
    upgradeKinds.contains "engine" = true ∧ upGet c10tank.upgrades "engine" < 3 ∧
    lvlCosts.getD (upGet c10tank.upgrades "engine") 0 ≤ c10tank.gears ∧
    (upgrade c10state 0 "engine").1 = .ok ("engine", upGet c10tank.upgrades "engine" + 1) := by
  have h1 : lookupTank c10state.tanks 0 = some c10tank := by
    simp [c10state, lookupTank]
  have h2 : c10tank.alive = false := rfl
  have h3 : upgradeKinds.contains "engine" = true := by decide
  have h4 : upGet c10tank.upgrades "engine" < 3 := by
    simp [c10tank, upGet]
  have h5 : lvlCosts.getD (upGet c10tank.upgrades "engine") 0 ≤ c10tank.gears := by
    simp [c10tank, upGet, lvlCosts]
    norm_num
  exact ⟨h1, h2, h3, h4, h5,
    (c10_upgrade_ignores_alive c10state 0 "engine" c10tank h1 h2 h3 h4 h5).1⟩

/-- C1 (amended): every command-validation failure is reported as a
structured error and leaves the shared state untouched, with one
exception — a shot that passes the cooldown check but fails the ammo or
range check has already written the shooter's `last_shot` timestamp, and
that write survives; nothing else changes in those two cases. -/
theorem c1_failures_preserve_state (st : GameState) (pid : ℕ) :
    (∀ path, lookupTank st.tanks pid = none →
      set_tank_path st pid path = (.error "tank not available", st)) ∧
    (∀ path t, lookupTank st.tanks pid = some t → t.alive = false →
      set_tank_path st pid path = (.error "tank not available", st)) ∧
    (∀ tq tr now sid, lookupTank st.tanks pid = none →
      shoot st pid tq tr now sid = (.error "tank not available", st)) ∧
    (∀ tq tr now sid t, lookupTank st.tanks pid = some t → t.alive = false →
      shoot st pid tq tr now sid = (.error "tank not available", st)) ∧
    (∀ tq tr now sid t, lookupTank st.tanks pid = some t → t.alive = true →
      now - t.last_shot < 4/5 →
      shoot st pid tq tr now sid = (.error "cooldown", st)) ∧
    (∀ tq tr now sid t, lookupTank st.tanks pid = some t → t.alive = true →
      ¬ (now - t.last_shot < 4/5) → t.ammo < t.ammo_cost →
      shoot st pid tq tr now sid = (.error "not enough ammo",
        { st with tanks := setTank st.tanks pid ({ t with last_shot := now }) })) ∧
    (∀ tq tr now sid t, lookupTank st.tanks pid = some t → t.alive = true →
      ¬ (now - t.last_shot < 4/5) → ¬ (t.ammo < t.ammo_cost) →
      5 + (upGet t.upgrades "cannon" : ℤ) <
        hex_distance (pyRound t.q, pyRound t.r) (tq, tr) →
      shoot st pid tq tr now sid = (.error "out of range",
        { st with tanks := setTank st.tanks pid ({ t with last_shot := now }) })) ∧
    (∀ utype, lookupTank st.tanks pid = none →
      upgrade st pid utype = (.error "no tank", st)) ∧
    (∀ utype t, lookupTank st.tanks pid = some t →
      upgradeKinds.contains utype = false →
      upgrade st pid utype = (.error "unknown upgrade", st)) ∧
    (∀ utype t, lookupTank st.tanks pid = some t →
      upgradeKinds.contains utype = true → 3 ≤ upGet t.upgrades utype →
      upgrade st pid utype = (.error "max level reached", st)) ∧
    (∀ utype t, lookupTank st.tanks pid = some t →
      upgradeKinds.contains utype = true → upGet t.upgrades utype < 3 →
      t.gears < lvlCosts.getD (upGet t.upgrades utype) 0 →
      upgrade st pid utype = (.error "not enough gears", st)) ∧
    (st.match_over = false → cast_vote st pid = (.error "match not over", st)) := by
  refine ⟨?_, ?_, ?_, ?_, ?_, ?_, ?_, ?_, ?_, ?_, ?_, ?_⟩
  · intro path h
    unfold set_tank_path
    rw [h]
  · intro path t h hd
    unfold set_tank_path
    rw [h]
    simp [hd]
  · intro tq tr now sid h
    unfold shoot
    rw [h]
  · intro tq tr now sid t h hd
    unfold shoot
    rw [h]
    simp [hd]
  · intro tq tr now sid t h ha hcd
    unfold shoot
    rw [h]
    simp only [ha, if_neg (by simp : ¬ (true = false)), if_pos hcd]
  · intro tq tr now sid t h ha hcd hammo
    unfold shoot
    rw [h]
    simp only [ha, if_neg (by simp : ¬ (true = false)), if_neg hcd, if_pos hammo]
  · intro tq tr now sid t h ha hcd hammo hrange
    unfold shoot
    rw [h]
    simp only [ha, if_neg (by simp : ¬ (true = false)), if_neg hcd, if_neg hammo,
      if_pos hrange]
  · intro utype h
    unfold upgrade
    rw [h]
  · intro utype t h hu
    unfold upgrade
    rw [h]
    simp only [if_pos hu]
  · intro utype t h hu hmax
    unfold upgrade
    rw [h]
    have : ¬ (upgradeKinds.contains utype = false) := by
      rw [hu]; exact fun hc => absurd hc (by decide)
    simp only [if_neg this, if_pos hmax]
  · intro utype t h hu hmax hg
    unfold upgrade
    rw [h]
    have hne : ¬ (upgradeKinds.contains utype = false) := by
      rw [hu]; exact fun hc => absurd hc (by decide)
    have hm : ¬ (3 ≤ upGet t.upgrades utype) := by omega
    simp only [if_neg hne, if_neg hm, if_pos hg]
  · intro h
    unfold cast_vote
    rw [h]
    simp

/-- C1 counterexample: a shot rejected for insufficient ammo still
mutates the state — the shooter's last-shot timestamp moves from 0 to
the current time, so the state after the failed command differs. -/
theorem c1_counterexample :
    (shoot c1state 0 0 0 10 0).1 = .error "not enough ammo" ∧
    (shoot c1state 0 0 0 10 0).2 ≠ c1state := by
  have heval : shoot c1state 0 0 0 10 0 = (.error "not enough ammo",
      { c1state with tanks := setTank c1state.tanks 0 ({ oTank 5 0 with last_shot := 10 }) }) := by
    have h : lookupTank c1state.tanks 0 = some (oTank 5 0) := by
      simp [c1state, lookupTank]
    simp only [shoot, h]
    norm_num [oTank]
  constructor
  · rw [heval]
  · rw [heval]
    intro hcontra
    have h : lookupTank c1state.tanks 0 = some (oTank 5 0) := by
      simp [c1state, lookupTank]
    have htanks : setTank c1state.tanks 0 ({ oTank 5 0 with last_shot := 10 })
        = c1state.tanks := congrArg GameState.tanks hcontra
    have hl : lookupTank (setTank c1state.tanks 0 ({ oTank 5 0 with last_shot := 10 })) 0
        = some ({ oTank 5 0 with last_shot := 10 }) :=
      lookupTank_setTank_self _ _ _ _ h
    rw [htanks, h] at hl
    have hls := congrArg (fun o => Tank.last_shot (o.getD (oTank 5 0))) hl
    simp [oTank] at hls

theorem c1_witness :
    c1state.match_over = false ∧
    cast_vote c1state 7 = (.error "match not over", c1state) ∧
    lookupTank c1state.tanks 0 = some (oTank 5 0) ∧
    (shoot c1state 0 0 0 10 0).1 = .error "not enough ammo" := by
  have h : lookupTank c1state.tanks 0 = some (oTank 5 0) := by
    simp [c1state, lookupTank]
  have hmain := c1_failures_preserve_state c1state 0
  refine ⟨rfl, hmain.2.2.2.2.2.2.2.2.2.2.2 rfl, h, ?_⟩
  have hres := hmain.2.2.2.2.2.1 0 0 10 0 (oTank 5 0) h rfl
    (by norm_num [oTank]) (by norm_num [oTank])
  rw [hres]

theorem shoot_origin (st : GameState) (a ls now : ℚ) (sid : ℕ)
    (h : st.tanks = [(0, oTank a ls)])
    (hcd : ¬ (now - ls < 4/5)) (hammo : ¬ (a < 8)) :
    (shoot st 0 0 0 now sid).1 = .ok sid ∧
    (shoot st 0 0 0 now sid).2.tanks = [(0, oTank (a - 8) now)] := by
  have hl : lookupTank st.tanks 0 = some (oTank a ls) := by
    rw [h]; simp [lookupTank]
  have hrange : ¬ ((5 : ℤ) + (upGet (oTank a ls).upgrades "cannon" : ℤ) <
      hex_distance (pyRound (oTank a ls).q, pyRound (oTank a ls).r) (0, 0)) := by
    simp only [oTank, pyRound_intCast]
    rw [show hex_distance ((0 : ℤ), (0 : ℤ)) (0, 0) = 0 from by decide]
    simp [upGet]
  have hres : shoot st 0 0 0 now sid = (.ok sid,
      { st with tanks := setTank st.tanks 0 ({ oTank a ls with last_shot := now, ammo := a - 8 }),
                shells := st.shells ++ [(sid,
                  { owner_id := 0, q := (oTank a ls).q, r := (oTank a ls).r,
                    target_q := 0, target_r := 0, speed := 5/2,
                    damage := (oTank a ls).shell_damage +
                      (upGet (oTank a ls).upgrades "cannon" : ℤ) * 5,
                    created := now })] }) := by
    simp only [shoot, hl]
    rw [if_neg (show ¬ ((oTank a ls).alive = false) from by simp [oTank])]
    rw [if_neg (show ¬ (now - (oTank a ls).last_shot < 4/5) from by simpa [oTank] using hcd)]
    rw [if_neg (show ¬ ((oTank a ls).ammo < (oTank a ls).ammo_cost) from by
      simpa [oTank] using hammo)]
    rw [if_neg hrange]
    simp [oTank]
  refine ⟨by rw [hres], ?_⟩
  rw [hres]
  rw [h]
  simp only [setTank, List.map_cons, List.map_nil, if_pos rfl]
  rfl

theorem shoot_origin_ammo_fail (st : GameState) (a ls now : ℚ) (sid : ℕ)
    (h : st.tanks = [(0, oTank a ls)])
    (hcd : ¬ (now - ls < 4/5)) (hammo : a < 8) :
    (shoot st 0 0 0 now sid).1 = .error "not enough ammo" := by
  have hl : lookupTank st.tanks 0 = some (oTank a ls) := by
    rw [h]; simp [lookupTank]
  have hres : shoot st 0 0 0 now sid = (.error "not enough ammo",
      { st with tanks := setTank st.tanks 0 ({ oTank a ls with last_shot := now }) }) := by
    simp only [shoot, hl]
    rw [if_neg (show ¬ ((oTank a ls).alive = false) from by simp [oTank])]
    rw [if_neg (show ¬ (now - (oTank a ls).last_shot < 4/5) from by simpa [oTank] using hcd)]
    rw [if_pos (show (oTank a ls).ammo < (oTank a ls).ammo_cost from by
      simpa [oTank] using hammo)]
  rw [hres]

/-- C6: the gating order of `shoot` — cooldown error iff the elapsed time
since the last shot is below 0.8 s; otherwise insufficient-ammo error iff
ammo is below the per-shot cost; otherwise out-of-range error iff the hex
distance from the rounded shooter cell to the target exceeds 5 plus the
cannon level; on success ammo drops by exactly the per-shot cost and one
shell is appended.  The scenario: a tank with 50 ammo and cost 8 that
respects the cooldown gets exactly 6 shots (ammo 50 → 2) and the 7th
returns the insufficient-ammo error. -/
theorem c6_shoot_gating_and_scenario :
    (∀ (st : GameState) (pid : ℕ) (tq tr : ℤ) (now : ℚ) (sid : ℕ) (t : Tank),
      lookupTank st.tanks pid = some t → t.alive = true →
      (((shoot st pid tq tr now sid).1 = .error "cooldown") ↔ now - t.last_shot < 4/5) ∧
      (¬ (now - t.last_shot < 4/5) →
        (((shoot st pid tq tr now sid).1 = .error "not enough ammo") ↔
          t.ammo < t.ammo_cost)) ∧
      (¬ (now - t.last_shot < 4/5) → ¬ (t.ammo < t.ammo_cost) →
        (((shoot st pid tq tr now sid).1 = .error "out of range") ↔
          5 + (upGet t.upgrades "cannon" : ℤ) <
            hex_distance (pyRound t.q, pyRound t.r) (tq, tr))) ∧
      (¬ (now - t.last_shot < 4/5) → ¬ (t.ammo < t.ammo_cost) →
        ¬ (5 + (upGet t.upgrades "cannon" : ℤ) <
            hex_distance (pyRound t.q, pyRound t.r) (tq, tr)) →
        (shoot st pid tq tr now sid).1 = .ok sid ∧
        lookupTank (shoot st pid tq tr now sid).2.tanks pid
          = some ({ t with last_shot := now, ammo := t.ammo - t.ammo_cost }) ∧
        (shoot st pid tq tr now sid).2.shells = st.shells ++ [(sid,
          { owner_id := pid, q := t.q, r := t.r, target_q := tq, target_r := tr,
            speed := 5/2,
            damage := t.shell_damage + (upGet t.upgrades "cannon" : ℤ) * 5,
            created := now })])) ∧
    (∃ t6, lookupTank (c6state 6).tanks 0 = some t6 ∧ t6.ammo = 2) ∧
    (∀ i : ℕ, i < 6 → (shoot (c6state i) 0 0 0 (10 + (i : ℚ)) i).1 = .ok i) ∧
    (shoot (c6state 6) 0 0 0 16 6).1 = .error "not enough ammo" := by
  have hgen : ∀ (st : GameState) (pid : ℕ) (tq tr : ℤ) (now : ℚ) (sid : ℕ) (t : Tank),
      lookupTank st.tanks pid = some t → t.alive = true →
      (((shoot st pid tq tr now sid).1 = .error "cooldown") ↔ now - t.last_shot < 4/5) ∧
      (¬ (now - t.last_shot < 4/5) →
        (((shoot st pid tq tr now sid).1 = .error "not enough ammo") ↔
          t.ammo < t.ammo_cost)) ∧
      (¬ (now - t.last_shot < 4/5) → ¬ (t.ammo < t.ammo_cost) →
        (((shoot st pid tq tr now sid).1 = .error "out of range") ↔
          5 + (upGet t.upgrades "cannon" : ℤ) <
            hex_distance (pyRound t.q, pyRound t.r) (tq, tr))) ∧
      (¬ (now - t.last_shot < 4/5) → ¬ (t.ammo < t.ammo_cost) →
        ¬ (5 + (upGet t.upgrades "cannon" : ℤ) <
            hex_distance (pyRound t.q, pyRound t.r) (tq, tr)) →
        (shoot st pid tq tr now sid).1 = .ok sid ∧
        lookupTank (shoot st pid tq tr now sid).2.tanks pid
          = some ({ t with last_shot := now, ammo := t.ammo - t.ammo_cost }) ∧
        (shoot st pid tq tr now sid).2.shells = st.shells ++ [(sid,
          { owner_id := pid, q := t.q, r := t.r, target_q := tq, target_r := tr,
            speed := 5/2,
            damage := t.shell_damage + (upGet t.upgrades "cannon" : ℤ) * 5,
            created := now })]) := by
    intro st pid tq tr now sid t ht halive
    have halive' : ¬ (t.alive = false) := by simp [halive]
    by_cases hcd : now - t.last_shot < 4/5
    · have hres : shoot st pid tq tr now sid = (.error "cooldown", st) := by
        simp only [shoot, ht]
        rw [if_neg halive', if_pos hcd]
      exact ⟨iff_of_true (by rw [hres]) hcd,
        fun hn => absurd hcd hn, fun hn => absurd hcd hn, fun hn => absurd hcd hn⟩
    · by_cases hammo : t.ammo < t.ammo_cost
      · have hres : shoot st pid tq tr now sid = (.error "not enough ammo",
            { st with tanks := setTank st.tanks pid ({ t with last_shot := now }) }) := by
          simp only [shoot, ht]
          rw [if_neg halive', if_neg hcd, if_pos hammo]
        refine ⟨iff_of_false (by rw [hres]; intro hc; simp at hc) hcd,
          fun _ => iff_of_true (by rw [hres]) hammo,
          fun _ hna => absurd hammo hna, fun _ hna => absurd hammo hna⟩
      · by_cases hr : 5 + (upGet t.upgrades "cannon" : ℤ) <
            hex_distance (pyRound t.q, pyRound t.r) (tq, tr)
        · have hres : shoot st pid tq tr now sid = (.error "out of range",
              { st with tanks := setTank st.tanks pid ({ t with last_shot := now }) }) := by
            simp only [shoot, ht]
            rw [if_neg halive', if_neg hcd, if_neg hammo, if_pos hr]
          refine ⟨iff_of_false (by rw [hres]; intro hc; simp at hc) hcd,
            fun _ => iff_of_false (by rw [hres]; intro hc; simp at hc) hammo,
            fun _ _ => iff_of_true (by rw [hres]) hr,
            fun _ _ hnr => absurd hr hnr⟩
        · have hres : shoot st pid tq tr now sid = (.ok sid,
              { st with
                tanks := setTank st.tanks pid
                  ({ t with last_shot := now, ammo := t.ammo - t.ammo_cost }),
                shells := st.shells ++ [(sid,
                  { owner_id := pid, q := t.q, r := t.r, target_q := tq, target_r := tr,
                    speed := 5/2,
                    damage := t.shell_damage + (upGet t.upgrades "cannon" : ℤ) * 5,
                    created := now })] }) := by
            simp only [shoot, ht]
            rw [if_neg halive', if_neg hcd, if_neg hammo, if_neg hr]
          refine ⟨iff_of_false (by rw [hres]; intro hc; simp at hc) hcd,
            fun _ => iff_of_false (by rw [hres]; intro hc; simp at hc) hammo,
            fun _ _ => iff_of_false (by rw [hres]; intro hc; simp at hc) hr,
            fun _ _ _ => ⟨by rw [hres], ?_, by rw [hres]⟩⟩
          rw [hres]
          exact lookupTank_setTank_self st.tanks pid t _ ht
  refine ⟨hgen, ?_, ?_, ?_⟩
  all_goals {
    have h0 : (c6state 0).tanks = [(0, oTank 50 0)] := rfl
    have s0 := shoot_origin (c6state 0) 50 0 (10 + ((0 : ℕ) : ℚ)) 0 h0
      (by push_cast; norm_num) (by norm_num)
    have h1 : (c6state 1).tanks = [(0, oTank 42 (10 + ((0 : ℕ) : ℚ)))] := by
      show (shoot (c6state 0) 0 0 0 (10 + ((0 : ℕ) : ℚ)) 0).2.tanks = _
      rw [s0.2, show (50 : ℚ) - 8 = 42 from by norm_num]
    have s1 := shoot_origin (c6state 1) 42 (10 + ((0 : ℕ) : ℚ)) (10 + ((1 : ℕ) : ℚ)) 1 h1
      (by push_cast; norm_num) (by norm_num)
    have h2 : (c6state 2).tanks = [(0, oTank 34 (10 + ((1 : ℕ) : ℚ)))] := by
      show (shoot (c6state 1) 0 0 0 (10 + ((1 : ℕ) : ℚ)) 1).2.tanks = _
      rw [s1.2, show (42 : ℚ) - 8 = 34 from by norm_num]
    have s2 := shoot_origin (c6state 2) 34 (10 + ((1 : ℕ) : ℚ)) (10 + ((2 : ℕ) : ℚ)) 2 h2
      (by push_cast; norm_num) (by norm_num)
    have h3 : (c6state 3).tanks = [(0, oTank 26 (10 + ((2 : ℕ) : ℚ)))] := by
      show (shoot (c6state 2) 0 0 0 (10 + ((2 : ℕ) : ℚ)) 2).2.tanks = _
      rw [s2.2, show (34 : ℚ) - 8 = 26 from by norm_num]
    have s3 := shoot_origin (c6state 3) 26 (10 + ((2 : ℕ) : ℚ)) (10 + ((3 : ℕ) : ℚ)) 3 h3
      (by push_cast; norm_num) (by norm_num)
    have h4 : (c6state 4).tanks = [(0, oTank 18 (10 + ((3 : ℕ) : ℚ)))] := by
      show (shoot (c6state 3) 0 0 0 (10 + ((3 : ℕ) : ℚ)) 3).2.tanks = _
      rw [s3.2, show (26 : ℚ) - 8 = 18 from by norm_num]
    have s4 := shoot_origin (c6state 4) 18 (10 + ((3 : ℕ) : ℚ)) (10 + ((4 : ℕ) : ℚ)) 4 h4
      (by push_cast; norm_num) (by norm_num)
    have h5 : (c6state 5).tanks = [(0, oTank 10 (10 + ((4 : ℕ) : ℚ)))] := by
      show (shoot (c6state 4) 0 0 0 (10 + ((4 : ℕ) : ℚ)) 4).2.tanks = _
      rw [s4.2, show (18 : ℚ) - 8 = 10 from by norm_num]
    have s5 := shoot_origin (c6state 5) 10 (10 + ((4 : ℕ) : ℚ)) (10 + ((5 : ℕ) : ℚ)) 5 h5
      (by push_cast; norm_num) (by norm_num)
    have h6 : (c6state 6).tanks = [(0, oTank 2 (10 + ((5 : ℕ) : ℚ)))] := by
      show (shoot (c6state 5) 0 0 0 (10 + ((5 : ℕ) : ℚ)) 5).2.tanks = _
      rw [s5.2, show (10 : ℚ) - 8 = 2 from by norm_num]
    first
    | · refine ⟨oTank 2 (10 + ((5 : ℕ) : ℚ)), ?_, rfl⟩
        rw [h6]
        simp [lookupTank]
    | · intro i hi
        interval_cases i
        · exact s0.1
        · exact s1.1
        · exact s2.1
        · exact s3.1
        · exact s4.1
        · exact s5.1
    | · refine shoot_origin_ammo_fail (c6state 6) 2 (10 + ((5 : ℕ) : ℚ)) 16 6 h6 ?_ ?_
        · push_cast
          norm_num
        · norm_num
  }

theorem c6_witness :
    lookupTank (c6state 0).tanks 0 = some (oTank 50 0) ∧ (oTank 50 0).alive = true ∧
    (((shoot (c6state 0) 0 0 0 10 0).1 = .error "cooldown") ↔
      10 - (oTank 50 0).last_shot < 4/5) := by
  have h : lookupTank (c6state 0).tanks 0 = some (oTank 50 0) := by
    simp [c6state, lookupTank]
  exact ⟨h, rfl, (c6_shoot_gating_and_scenario.1 (c6state 0) 0 0 0 10 0 (oTank 50 0) h rfl).1⟩

/-- C7: on any lethal hit (with the shooter still present), the victim's
post-death resources respect the floors — fuel ≥ 15, ammo ≥ 10,
gears ≥ 0 — and each loss is clamped (the post value never exceeds
`max floor old`); the killer receives gears only: an amount `g` with
`5 ≤ g ≤ max 5 (gears actually lost)` is added (capped at 99), while the
killer's fuel and ammo are untouched.  Loot ratios are the uniform
samples in `[0.20, 0.60]` produced from the injected random stream. -/
theorem c7_death_loot (st : GameState) (sh : Shell) (rng : ℕ → ℚ) (now : ℚ) (k : ℕ)
    (pid : ℕ) (t shooter : Tank)
    (ht : lookupTank st.tanks pid = some t)
    (hnotowner : ¬ (pid = sh.owner_id))
    (halive : t.alive = true)
    (hin : hex_distance (pyRound t.q, pyRound t.r) (sh.target_q, sh.target_r) ≤ 1)
    (hlethal : t.hp - sh.damage ≤ 0)
    (hshooter : lookupTank st.tanks sh.owner_id = some shooter)
    (hgears : 0 ≤ t.gears)
    (hrng : ∀ j : ℕ, 0 ≤ rng j ∧ rng j ≤ 1) :
    ∃ (rf ra rg g : ℚ) (v killer : Tank),
      1/5 ≤ rf ∧ rf ≤ 3/5 ∧ 1/5 ≤ ra ∧ ra ≤ 3/5 ∧ 1/5 ≤ rg ∧ rg ≤ 3/5 ∧
      lookupTank (impactOne sh rng now (st, k) pid).1.tanks pid = some v ∧
      v.alive = false ∧
      15 ≤ v.fuel ∧ v.fuel ≤ max 15 t.fuel ∧
      10 ≤ v.ammo ∧ v.ammo ≤ max 10 t.ammo ∧
      0 ≤ v.gears ∧ v.gears = t.gears - max 0 (min (t.gears * rg) (t.gears - 0)) ∧
      lookupTank (impactOne sh rng now (st, k) pid).1.tanks sh.owner_id = some killer ∧
      5 ≤ g ∧ g ≤ max 5 (t.gears - v.gears) ∧
      killer.gears = min 99 (shooter.gears + g) ∧
      killer.fuel = shooter.fuel ∧ killer.ammo = shooter.ammo ∧ killer.hp = shooter.hp := by
  have howner' : ¬ (sh.owner_id = pid) := fun hc => hnotowner hc.symm
  have hres : impactOne sh rng now (st, k) pid
      = impactDeath rng k now sh.owner_id pid ({ t with hp := t.hp - sh.damage }) st := by
    simp only [impactOne, ht]
    rw [if_neg hnotowner, if_neg (show ¬ (t.alive = false) from by simp [halive]),
      if_pos hin, if_pos hlethal]
  set rf := pyUniform (1/5) (3/5) (rng k) with hrf
  set ra := pyUniform (1/5) (3/5) (rng (k+1)) with hra
  set rg := pyUniform (1/5) (3/5) (rng (k+2)) with hrg
  set t3 : Tank := { t with hp := 0, alive := false, respawn_timer := 8, path := [], deaths := t.deaths + 1 } with ht3
  set looted := lootVictim rf ra rg t3 with hlooted
  set g := pyUniform 5 (max 5 looted.2) (rng (k+3)) with hg
  set K : Tank := { shooter with score := shooter.score + 10, kills := shooter.kills + 1, gears := min 99 (shooter.gears + g) } with hK
  have htanks : (impactOne sh rng now (st, k) pid).1.tanks
      = setTank (setTank st.tanks pid looted.1) sh.owner_id K := by
    rw [hres]
    simp only [impactDeath, hshooter]
  have hlookv : lookupTank (impactOne sh rng now (st, k) pid).1.tanks pid
      = some looted.1 := by
    rw [htanks, lookupTank_setTank_other _ _ _ _ hnotowner]
    exact lookupTank_setTank_self _ _ t _ ht
  have hlookk : lookupTank (impactOne sh rng now (st, k) pid).1.tanks sh.owner_id
      = some K := by
    rw [htanks]
    refine lookupTank_setTank_self _ _ shooter _ ?_
    rw [lookupTank_setTank_other _ _ _ _ howner']
    exact hshooter
  have hu0 := hrng k
  have hu1 := hrng (k+1)
  have hu2 := hrng (k+2)
  have hu3 := hrng (k+3)
  have hglost0 : 0 ≤ looted.2 := by
    rw [hlooted]
    unfold lootVictim
    exact le_max_left _ _
  refine ⟨rf, ra, rg, g, looted.1, K, ?_, ?_, ?_, ?_, ?_, ?_, hlookv, ?_, ?_, ?_, ?_, ?_, ?_,
    ?_, hlookk, ?_, ?_, ?_, ?_, ?_, ?_⟩
  · rw [hrf]; unfold pyUniform; nlinarith [hu0.1, hu0.2]
  · rw [hrf]; unfold pyUniform; nlinarith [hu0.1, hu0.2]
  · rw [hra]; unfold pyUniform; nlinarith [hu1.1, hu1.2]
  · rw [hra]; unfold pyUniform; nlinarith [hu1.1, hu1.2]
  · rw [hrg]; unfold pyUniform; nlinarith [hu2.1, hu2.2]
  · rw [hrg]; unfold pyUniform; nlinarith [hu2.1, hu2.2]
  · rw [hlooted]; unfold lootVictim; rfl
  · rw [hlooted]; unfold lootVictim
    exact le_max_left _ _
  · rw [hlooted]; unfold lootVictim
    simp only
    have h1 : 0 ≤ max 0 (min (t3.fuel * rf) (t3.fuel - 15)) := le_max_left _ _
    have h2 : t3.fuel = t.fuel := rfl
    rw [max_le_iff]
    constructor
    · exact le_max_left _ _
    · rw [h2]
      have : t.fuel - max 0 (min (t.fuel * rf) (t.fuel - 15)) ≤ t.fuel := by
        have := le_max_left (0 : ℚ) (min (t.fuel * rf) (t.fuel - 15))
        linarith
      exact le_trans this (le_max_right _ _)
  · rw [hlooted]; unfold lootVictim
    exact le_max_left _ _
  · rw [hlooted]; unfold lootVictim
    simp only
    rw [max_le_iff]
    constructor
    · exact le_max_left _ _
    · have : t3.ammo - max 0 (min (t3.ammo * ra) (t3.ammo - 10)) ≤ t3.ammo := by
        have := le_max_left (0 : ℚ) (min (t3.ammo * ra) (t3.ammo - 10))
        linarith
      exact le_trans this (le_max_right _ _)
  · rw [hlooted]; unfold lootVictim
    exact le_max_left _ _
  · rw [hlooted]; unfold lootVictim
    simp only
    have h2 : t3.gears = t.gears := rfl
    rw [h2]
    have hmin : max 0 (min (t.gears * rg) (t.gears - 0)) ≤ t.gears := by
      rw [max_le_iff]
      refine ⟨hgears, ?_⟩
      have : min (t.gears * rg) (t.gears - 0) ≤ t.gears - 0 := min_le_right _ _
      linarith
    rw [max_eq_right]
    linarith
  · rw [hg]; unfold pyUniform
    have hmax : (5 : ℚ) ≤ max 5 looted.2 := le_max_left _ _
    nlinarith [hu3.1, hu3.2]
  · have hvg : looted.1.gears = t.gears - max 0 (min (t.gears * rg) (t.gears - 0)) := by
      rw [hlooted]; unfold lootVictim
      simp only
      have h2 : t3.gears = t.gears := rfl
      rw [h2]
      have hmin : max 0 (min (t.gears * rg) (t.gears - 0)) ≤ t.gears := by
        rw [max_le_iff]
        refine ⟨hgears, ?_⟩
        have : min (t.gears * rg) (t.gears - 0) ≤ t.gears - 0 := min_le_right _ _
        linarith
      rw [max_eq_right]
      linarith
    rw [hvg]
    have hlost : t.gears - (t.gears - max 0 (min (t.gears * rg) (t.gears - 0)))
        = max 0 (min (t.gears * rg) (t.gears - 0)) := by ring
    rw [hlost]
    have hl2 : looted.2 = max 0 (min (t.gears * rg) (t.gears - 0)) := by
      rw [hlooted]; unfold lootVictim
      rfl
    rw [hg]; unfold pyUniform
    rw [← hl2]
    have hmax : (5 : ℚ) ≤ max 5 looted.2 := le_max_left _ _
    nlinarith [hu3.1, hu3.2]
  · rw [hK]
  · rw [hK]
  · rw [hK]
  · rw [hK]

theorem c7_witness :
    lookupTank c7state.tanks 0 = some c7victim ∧
    ¬ ((0 : ℕ) = c7shell.owner_id) ∧ c7victim.alive = true ∧
    hex_distance (pyRound c7victim.q, pyRound c7victim.r)
      (c7shell.target_q, c7shell.target_r) ≤ 1 ∧
    c7victim.hp - c7shell.damage ≤ 0 ∧
    lookupTank c7state.tanks c7shell.owner_id = some c7shooter ∧
    (0 : ℚ) ≤ c7victim.gears ∧
    (∃ (rf ra rg g : ℚ) (v killer : Tank),
      1/5 ≤ rf ∧ rf ≤ 3/5 ∧ 1/5 ≤ ra ∧ ra ≤ 3/5 ∧ 1/5 ≤ rg ∧ rg ≤ 3/5 ∧
      lookupTank (impactOne c7shell (fun _ => 0) 0 (c7state, 0) 0).1.tanks 0 = some v ∧
      v.alive = false ∧
      15 ≤ v.fuel ∧ v.fuel ≤ max 15 c7victim.fuel ∧
      10 ≤ v.ammo ∧ v.ammo ≤ max 10 c7victim.ammo ∧
      0 ≤ v.gears ∧
      v.gears = c7victim.gears - max 0 (min (c7victim.gears * rg) (c7victim.gears - 0)) ∧
      lookupTank (impactOne c7shell (fun _ => 0) 0 (c7state, 0) 0).1.tanks
        c7shell.owner_id = some killer ∧
      5 ≤ g ∧ g ≤ max 5 (c7victim.gears - v.gears) ∧
      killer.gears = min 99 (c7shooter.gears + g) ∧
      killer.fuel = c7shooter.fuel ∧ killer.ammo = c7shooter.ammo ∧
      killer.hp = c7shooter.hp) := by
  have h1 : lookupTank c7state.tanks 0 = some c7victim := by
    simp [c7state, lookupTank]
  have h2 : ¬ ((0 : ℕ) = c7shell.owner_id) := by
    simp [c7shell]
  have h3 : c7victim.alive = true := rfl
  have h4 : hex_distance (pyRound c7victim.q, pyRound c7victim.r)
      (c7shell.target_q, c7shell.target_r) ≤ 1 := by
    simp only [c7victim, c7shell, pyRound_intCast]
    rw [show hex_distance ((0 : ℤ), (0 : ℤ)) (0, 0) = 0 from by decide]
    norm_num
  have h5 : c7victim.hp - c7shell.damage ≤ 0 := by
    norm_num [c7victim, c7shell]
  have h6 : lookupTank c7state.tanks c7shell.owner_id = some c7shooter := by
    simp [c7state, c7shell, lookupTank]
  have h7 : (0 : ℚ) ≤ c7victim.gears := by norm_num [c7victim]
  have h8 : ∀ j : ℕ, 0 ≤ (fun _ : ℕ => (0 : ℚ)) j ∧ (fun _ : ℕ => (0 : ℚ)) j ≤ 1 := by
    intro j
    norm_num
  exact ⟨h1, h2, h3, h4, h5, h6, h7,
    c7_death_loot c7state c7shell (fun _ => 0) 0 0 0 c7victim c7shooter
      h1 h2 h3 h4 h5 h6 h7 h8⟩

theorem pyRound_zero : pyRound (0 : ℝ) = 0 := by
  simpa using pyRound_intCast 0

theorem pyRound_five : pyRound (5 : ℝ) = 5 := by
  simpa using pyRound_intCast 5

set_option maxHeartbeats 1000000 in
/-- C2 at the failing input: the victim dies at the origin owning forts
at straight-line distances 1, 2 and 3; the code releases the fort at
distance 1 — the nearest — and keeps the two farthest, the opposite of
the release order its own comment and the spec describe. -/
theorem c2_code_releases_nearest :
    (shell_impact c2shell (fun _ => 0) 0 c2state 0).1.forts.map (fun e => (e.1, e.2.owner))
      = [(0, none), (1, some 0), (2, some 0)] := by
  norm_num [shell_impact, c2state, impactOne, lookupTank, c2victim, c2shooter, c2shell,
    impactDeath, lootVictim, pyUniform, releaseForts, fortsOwnedBy, sortDesc, insertDesc,
    setTank, c2fort, pyRound_intCast, pyRound_zero, pyRound_five, hex_distance]

theorem pyRound_two : pyRound (2 : ℝ) = 2 := by
  simpa using pyRound_intCast 2

theorem effTime_update (f : Fort) (p : ℚ) :
    effTime { f with capture_progress := p } = effTime f := rfl

theorem captureFortStep_bounds (now dt : ℚ) (tanks : List (ℕ × Tank))
    (events : List GEvent) (f : Fort) (hdt : 0 < dt)
    (hf : 0 ≤ f.capture_progress ∧ f.capture_progress ≤ effTime f) :
    0 ≤ (captureFortStep now dt tanks events f).1.capture_progress ∧
    (captureFortStep now dt tanks events f).1.capture_progress
      ≤ effTime (captureFortStep now dt tanks events f).1 := by
  have heff0 : (0 : ℚ) ≤ effTime f := by
    rw [effTime]; split_ifs <;> norm_num
  have heff15 : effTime f ≤ 5 * (3/2) := by
    rw [effTime]; split_ifs <;> norm_num
  rcases hocc : occupantsOn f tanks with _ | ⟨c, _ | ⟨c2, rest⟩⟩
  · simp only [captureFortStep, hocc]
    split_ifs with h1 h2 <;> dsimp only <;> rw [effTime] at * <;> split_ifs at * <;>
      constructor <;> first
      | exact le_max_left _ _
      | (rw [max_le_iff]; constructor <;> [norm_num; linarith [hf.2]])
      | exact hf.1
      | exact hf.2
      | linarith [hf.1, hf.2]
  · simp only [captureFortStep, hocc]
    split_ifs with h1 h2 h3 <;> dsimp only <;> rw [effTime] at * <;> split_ifs at * <;>
      constructor <;> first
      | exact le_max_left _ _
      | (rw [max_le_iff]; constructor <;> [norm_num; linarith [hf.2]])
      | exact hf.1
      | exact hf.2
      | linarith [hf.1, hf.2]
      | norm_num [effTime]
      | (push_neg at h3; linarith [hf.1, hf.2])
  · simp only [captureFortStep, hocc]
    try dsimp only
    rw [effTime] at *
    split_ifs at * <;> constructor <;> first
      | exact le_max_left _ _
      | (rw [max_le_iff]; constructor <;> [norm_num; linarith [hf.2]])

theorem captureFortStep_transfer (now dt : ℚ) (tanks : List (ℕ × Tank))
    (events : List GEvent) (f : Fort) :
    ((captureFortStep now dt tanks events f).1.owner ≠ f.owner ↔
      (∃ c, occupantsOn f tanks = [c] ∧ ¬ f.owner = some c ∧ f.capturing_player = some c ∧
        effTime f ≤ f.capture_progress + dt)) ∧
    (∀ c, occupantsOn f tanks = [c] → ¬ f.owner = some c → f.capturing_player = some c →
      effTime f ≤ f.capture_progress + dt →
      (captureFortStep now dt tanks events f).1.owner = some c ∧
      (captureFortStep now dt tanks events f).1.capture_progress = effTime f ∧
      (captureFortStep now dt tanks events f).1.was_owned = true ∧
      (captureFortStep now dt tanks events f).1.capturing_player = none ∧
      ∀ t, lookupTank tanks c = some t →
        lookupTank (captureFortStep now dt tanks events f).2.1 c
          = some ({ t with score := t.score + 5, fort_captures := t.fort_captures + 1 })) := by
  rcases hocc : occupantsOn f tanks with _ | ⟨c, _ | ⟨c2, rest⟩⟩
  · constructor
    · simp only [captureFortStep, hocc]
      split_ifs with h1 <;> dsimp only <;>
        refine iff_of_false (fun hne => hne rfl) ?_ <;>
        · rintro ⟨c', hc, -⟩
          exact absurd hc (by simp)
    · intro c' hc
      exact absurd hc (by simp)
  · constructor
    · simp only [captureFortStep, hocc]
      split_ifs with h1 h2 h3 <;> dsimp only
      · refine iff_of_false (fun hne => hne rfl) ?_
        rintro ⟨c', hc, hno, -⟩
        rw [List.cons.injEq] at hc
        rw [hc.1] at h1
        exact hno h1
      · refine iff_of_true (fun hc => h1 hc.symm) ⟨c, rfl, h1, h2, h3⟩
      · refine iff_of_false (fun hne => hne rfl) ?_
        rintro ⟨c', hc, -, -, h3'⟩
        exact h3 h3'
      · refine iff_of_false (fun hne => hne rfl) ?_
        rintro ⟨c', hc, -, h2', -⟩
        rw [List.cons.injEq] at hc
        rw [← hc.1] at h2'
        exact h2 h2'
    · intro c' hc hno hcap heff
      rw [List.cons.injEq] at hc
      obtain ⟨rfl, -⟩ := hc
      simp only [captureFortStep, hocc]
      rw [if_neg hno, if_pos hcap, if_pos heff]
      refine ⟨rfl, rfl, rfl, rfl, ?_⟩
      intro t ht
      dsimp only
      rw [ht]
      exact lookupTank_setTank_self tanks _ t _ ht
  · constructor
    · simp only [captureFortStep, hocc]
      refine iff_of_false (fun hne => hne rfl) ?_
      rintro ⟨c', hc, -⟩
      exact absurd hc (by simp)
    · intro c' hc
      exact absurd hc (by simp)

theorem capture_fold_bounds (now dt : ℚ) (hdt : 0 < dt) :
    ∀ (l : List (ℕ × Fort)) (acc : List (ℕ × Fort) × List (ℕ × Tank) × List GEvent),
    (∀ fid f, (fid, f) ∈ acc.1 → 0 ≤ f.capture_progress ∧ f.capture_progress ≤ effTime f) →
    (∀ fid f, (fid, f) ∈ l → 0 ≤ f.capture_progress ∧ f.capture_progress ≤ effTime f) →
    ∀ fid f', (fid, f') ∈ (l.foldl
      (fun (acc : List (ℕ × Fort) × List (ℕ × Tank) × List GEvent) e =>
        let r := captureFortStep now dt acc.2.1 acc.2.2 e.2
        (acc.1 ++ [(e.1, r.1)], r.2.1, r.2.2)) acc).1 →
      0 ≤ f'.capture_progress ∧ f'.capture_progress ≤ effTime f' := by
  intro l
  induction l with
  | nil =>
    intro acc hacc _ fid f' hmem
    exact hacc fid f' hmem
  | cons e rest ih =>
    intro acc hacc hl fid f' hmem
    rw [List.foldl_cons] at hmem
    refine ih _ ?_ (fun fid f hf => hl fid f (List.mem_cons_of_mem _ hf)) fid f' hmem
    intro fid2 f2 hf2
    rw [List.mem_append] at hf2
    rcases hf2 with hf2 | hf2
    · exact hacc fid2 f2 hf2
    · rw [List.mem_singleton] at hf2
      rw [Prod.mk.injEq] at hf2
      rw [hf2.2]
      exact captureFortStep_bounds now dt acc.2.1 acc.2.2 e.2 hdt
        (hl e.1 e.2 (List.mem_cons_self _ _))

/-- C3 (amended): capture progress stays within `[0, effective capture
time]` on every tick (effective time = base 5 s, times 1.5 exactly when
the fort was ever owned); ownership changes in a tick iff a sole
non-owner occupant equal to the current contester pushes the progress to
the bound; on that transfer the progress is set to the effective capture
time itself — not reset to 0 — the ever-owned flag is set, the contest
is cleared, and the capturer's score rises by 5 and capture count by 1. -/
theorem c3_capture_progress_and_transfer :
    (∀ (now dt : ℚ) (st : GameState), 0 < dt →
      (∀ fid f, (fid, f) ∈ st.forts →
        0 ≤ f.capture_progress ∧ f.capture_progress ≤ effTime f) →
      ∀ fid f', (fid, f') ∈ (update_captures now dt st).forts →
        0 ≤ f'.capture_progress ∧ f'.capture_progress ≤ effTime f') ∧
    (∀ (now dt : ℚ) (tanks : List (ℕ × Tank)) (events : List GEvent) (f : Fort),
      ((captureFortStep now dt tanks events f).1.owner ≠ f.owner ↔
        (∃ c, occupantsOn f tanks = [c] ∧ ¬ f.owner = some c ∧
          f.capturing_player = some c ∧ effTime f ≤ f.capture_progress + dt)) ∧
      (∀ c, occupantsOn f tanks = [c] → ¬ f.owner = some c → f.capturing_player = some c →
        effTime f ≤ f.capture_progress + dt →
        (captureFortStep now dt tanks events f).1.owner = some c ∧
        (captureFortStep now dt tanks events f).1.capture_progress = effTime f ∧
        (captureFortStep now dt tanks events f).1.was_owned = true ∧
        (captureFortStep now dt tanks events f).1.capturing_player = none ∧
        ∀ t, lookupTank tanks c = some t →
          lookupTank (captureFortStep now dt tanks events f).2.1 c
            = some ({ t with score := t.score + 5, fort_captures := t.fort_captures + 1 }))) := by
  constructor
  · intro now dt st hdt hbound fid f' hmem
    simp only [update_captures] at hmem
    refine capture_fold_bounds now dt hdt st.forts ([], st.tanks, st.pending_events)
      ?_ hbound fid f' hmem
    intro fid2 f2 hf2
    exact absurd hf2 (List.not_mem_nil _)
  · intro now dt tanks events f
    exact captureFortStep_transfer now dt tanks events f

/-- C3 counterexample: a never-owned fort at progress 4.8 contested by
its sole occupant transfers on a 0.2 s tick, and its progress afterwards
is the effective capture time 5, not 0 as the claim states. -/
theorem c3_counterexample :
    (lookupFort (update_captures 0 (1/5) c3state).forts 0).map
        (fun f => (f.owner, f.capture_progress)) = some (some 0, 5) ∧ (5 : ℚ) ≠ 0 := by
  constructor
  · norm_num [update_captures, c3state, captureFortStep, occupantsOn, c3tank, c3fort,
      lookupFort, lookupTank, setTank, effTime, pyRound_intCast, pyRound_two]
    rw [if_neg (show ¬ ((none : Option ℕ) = some 0) from by simp)]
    exact ⟨rfl, rfl⟩
  · norm_num

theorem c3_witness :
    (0 : ℚ) < 1/5 ∧
    (∀ fid f, (fid, f) ∈ c3state.forts →
      0 ≤ f.capture_progress ∧ f.capture_progress ≤ effTime f) ∧
    (∀ fid f', (fid, f') ∈ (update_captures 0 (1/5) c3state).forts →
      0 ≤ f'.capture_progress ∧ f'.capture_progress ≤ effTime f') := by
  have h1 : (0 : ℚ) < 1/5 := by norm_num
  have h2 : ∀ fid f, (fid, f) ∈ c3state.forts →
      0 ≤ f.capture_progress ∧ f.capture_progress ≤ effTime f := by
    intro fid f hf
    simp only [c3state, List.mem_singleton, Prod.mk.injEq] at hf
    rw [hf.2]
    norm_num [c3fort, effTime]
  exact ⟨h1, h2, c3_capture_progress_and_transfer.1 0 (1/5) c3state h1 h2⟩

/-- C5: one movement tick for a living tank with a non-empty path —
within `speed·dt` of the path head and with fuel at least the per-hex
cost 4, the tank snaps exactly onto the waypoint, pays exactly 4 fuel,
and pops it; within the step but with fuel below 4, the path is cleared
and neither position nor fuel changes (so the tank never reaches a new
cell this tick); beyond the step, the position interpolates linearly
toward the waypoint, the facing is recomputed, and path and fuel are
untouched. -/
theorem c5_move_step (dt : ℚ) (t : Tank) (wp : ℤ × ℤ) (rest : List (ℤ × ℤ))
    (halive : t.alive = true) (hpath : t.path = wp :: rest) :
    (Real.sqrt (((wp.1 : ℝ) - t.q) * ((wp.1 : ℝ) - t.q) +
        ((wp.2 : ℝ) - t.r) * ((wp.2 : ℝ) - t.r)) ≤ (t.move_speed : ℝ) * (dt : ℝ) →
      ((4 ≤ t.fuel →
        (moveTankStep dt t).q = (wp.1 : ℝ) ∧ (moveTankStep dt t).r = (wp.2 : ℝ) ∧
        (moveTankStep dt t).fuel = t.fuel - 4 ∧ (moveTankStep dt t).path = rest) ∧
      (t.fuel < 4 →
        (moveTankStep dt t).path = [] ∧ (moveTankStep dt t).q = t.q ∧
        (moveTankStep dt t).r = t.r ∧ (moveTankStep dt t).fuel = t.fuel))) ∧
    (¬ (Real.sqrt (((wp.1 : ℝ) - t.q) * ((wp.1 : ℝ) - t.q) +
        ((wp.2 : ℝ) - t.r) * ((wp.2 : ℝ) - t.r)) ≤ (t.move_speed : ℝ) * (dt : ℝ)) →
      (moveTankStep dt t).q = t.q + ((wp.1 : ℝ) - t.q) /
        Real.sqrt (((wp.1 : ℝ) - t.q) * ((wp.1 : ℝ) - t.q) +
          ((wp.2 : ℝ) - t.r) * ((wp.2 : ℝ) - t.r)) * ((t.move_speed : ℝ) * (dt : ℝ)) ∧
      (moveTankStep dt t).r = t.r + ((wp.2 : ℝ) - t.r) /
        Real.sqrt (((wp.1 : ℝ) - t.q) * ((wp.1 : ℝ) - t.q) +
          ((wp.2 : ℝ) - t.r) * ((wp.2 : ℝ) - t.r)) * ((t.move_speed : ℝ) * (dt : ℝ)) ∧
      (moveTankStep dt t).facing = pyAtan2 ((wp.2 : ℝ) - t.r) ((wp.1 : ℝ) - t.q) ∧
      (moveTankStep dt t).path = t.path ∧
      (moveTankStep dt t).fuel = t.fuel) := by
  obtain ⟨wq, wr⟩ := wp
  have halive' : ¬ (t.alive = false) := by simp [halive]
  constructor
  · intro hdist
    constructor
    · intro hfuel
      have hfuel' : ¬ (t.fuel < 4) := not_lt.mpr hfuel
      simp only [moveTankStep, hpath]
      rw [if_neg halive', if_pos hdist, if_neg hfuel']
      split_ifs <;> exact ⟨rfl, rfl, rfl, rfl⟩
    · intro hfuel
      simp only [moveTankStep, hpath]
      rw [if_neg halive', if_pos hdist, if_pos hfuel]
      exact ⟨rfl, rfl, rfl, rfl⟩
  · intro hdist
    simp only [moveTankStep, hpath]
    rw [if_neg halive', if_neg hdist]
    exact ⟨rfl, rfl, rfl, rfl, rfl⟩

theorem c5_witness :
    c5tank.alive = true ∧ c5tank.path = ((0 : ℤ), (1 : ℤ)) :: [] ∧
    (Real.sqrt ((((0 : ℤ) : ℝ) - c5tank.q) * (((0 : ℤ) : ℝ) - c5tank.q) +
        (((1 : ℤ) : ℝ) - c5tank.r) * (((1 : ℤ) : ℝ) - c5tank.r))
        ≤ (c5tank.move_speed : ℝ) * ((1 : ℚ) : ℝ) →
      4 ≤ c5tank.fuel →
      (moveTankStep 1 c5tank).q = ((0 : ℤ) : ℝ) ∧ (moveTankStep 1 c5tank).r = ((1 : ℤ) : ℝ) ∧
      (moveTankStep 1 c5tank).fuel = c5tank.fuel - 4 ∧ (moveTankStep 1 c5tank).path = []) := by
  refine ⟨rfl, rfl, ?_⟩
  intro hdist hfuel
  exact ((c5_move_step 1 c5tank ((0 : ℤ), (1 : ℤ)) [] rfl rfl).1 hdist).1 hfuel

theorem foldl_inv {σ α : Type _} (P : σ → Prop) (Q : α → Prop) (f : σ → α → σ)
    (hf : ∀ s a, Q a → P s → P (f s a)) :
    ∀ (l : List α), (∀ a ∈ l, Q a) → ∀ s, P s → P (l.foldl f s) := by
  intro l
  induction l with
  | nil => intro _ s hs; exact hs
  | cons a rest ih =>
    intro hQ s hs
    rw [List.foldl_cons]
    exact ih (fun x hx => hQ x (List.mem_cons_of_mem _ hx)) _
      (hf s a (hQ a (List.mem_cons_self _ _)) hs)

theorem lookupTank_mem (ts : List (ℕ × Tank)) (pid : ℕ) (t : Tank)
    (h : lookupTank ts pid = some t) : (pid, t) ∈ ts := by
  induction ts with
  | nil => simp [lookupTank] at h
  | cons e rest ih =>
    rw [lookupTank] at h
    by_cases he : e.1 = pid
    · rw [if_pos he] at h
      have heq : e = (pid, t) := by
        rw [Prod.ext_iff]
        exact ⟨he, Option.some_inj.mp h⟩
      rw [heq]
      exact List.mem_cons_self _ _
    · rw [if_neg he] at h
      exact List.mem_cons_of_mem _ (ih h)

theorem TanksOK_setTank (ts : List (ℕ × Tank)) (pid : ℕ) (t' : Tank)
    (hok : TanksOK ts) (ht' : TankOK t') : TanksOK (setTank ts pid t') := by
  intro p u hmem
  rw [setTank, List.mem_map] at hmem
  obtain ⟨e, he, heq⟩ := hmem
  by_cases hc : e.1 = pid
  · rw [if_pos hc] at heq
    rw [Prod.mk.injEq] at heq
    rw [← heq.2]
    exact ht'
  · rw [if_neg hc] at heq
    subst heq
    exact hok p u he

theorem TanksOK_lookup (ts : List (ℕ × Tank)) (pid : ℕ) (t : Tank)
    (hok : TanksOK ts) (h : lookupTank ts pid = some t) : TankOK t :=
  hok pid t (lookupTank_mem ts pid t h)

theorem moveTankStep_TankOK (dt : ℚ) (t : Tank) (h : TankOK t) :
    TankOK (moveTankStep dt t) := by
  obtain ⟨h1, h2, h3, h4, h5, h6, h7, h8⟩ := h
  rcases hp : t.path with _ | ⟨⟨nq, nr⟩, rest⟩ <;> simp only [moveTankStep, hp]
  · split_ifs <;> exact ⟨h1, h2, h3, h4, h5, h6, h7, h8⟩
  · split_ifs with ha hd hf hr
    · exact ⟨h1, h2, h3, h4, h5, h6, h7, h8⟩
    · exact ⟨h1, h2, h3, h4, h5, h6, h7, h8⟩
    · refine ⟨h1, h2, ?_, ?_, h5, h6, h7, h8⟩ <;>
        · dsimp only
          linarith [not_lt.mp hf]
    · refine ⟨h1, h2, ?_, ?_, h5, h6, h7, h8⟩ <;>
        · dsimp only
          linarith [not_lt.mp hf]
    · exact ⟨h1, h2, h3, h4, h5, h6, h7, h8⟩

theorem TanksOK_move_tanks (dt : ℚ) (st : GameState) (hok : TanksOK st.tanks) :
    TanksOK (move_tanks dt st).tanks := by
  intro p u hmem
  rw [move_tanks] at hmem
  simp only [List.mem_map] at hmem
  obtain ⟨e, he, heq⟩ := hmem
  rw [Prod.mk.injEq] at heq
  rw [← heq.2]
  refine moveTankStep_TankOK dt e.2 (hok e.1 e.2 ?_)
  rw [Prod.mk.eta]
  exact he

theorem lootVictim_TankOK (rf ra rg : ℚ) (t : Tank) (h : TankOK t) :
    TankOK (lootVictim rf ra rg t).1 := by
  obtain ⟨h1, h2, h3, h4, h5, h6, h7, h8⟩ := h
  rw [lootVictim]
  refine ⟨h1, h2, ?_, ?_, ?_, ?_, ?_, ?_⟩
  · have : (0 : ℚ) ≤ 15 := by norm_num
    exact le_trans this (le_max_left _ _)
  · rw [max_le_iff]
    constructor
    · norm_num
    · have hl : 0 ≤ max 0 (min (t.fuel * rf) (t.fuel - 15)) := le_max_left _ _
      linarith
  · have : (0 : ℚ) ≤ 10 := by norm_num
    exact le_trans this (le_max_left _ _)
  · rw [max_le_iff]
    constructor
    · norm_num
    · have hl : 0 ≤ max 0 (min (t.ammo * ra) (t.ammo - 10)) := le_max_left _ _
      linarith
  · exact le_max_left _ _
  · rw [max_le_iff]
    constructor
    · norm_num
    · have hl : 0 ≤ max 0 (min (t.gears * rg) (t.gears - 0)) := le_max_left _ _
      linarith

theorem impactDeath_TanksOK (rng : ℕ → ℚ) (k : ℕ) (now : ℚ) (spid pid : ℕ) (t1 : Tank)
    (st : GameState) (hok : TanksOK st.tanks)
    (ht1 : 0 ≤ t1.max_hp ∧ 0 ≤ t1.fuel ∧ t1.fuel ≤ 120 ∧ 0 ≤ t1.ammo ∧ t1.ammo ≤ 100 ∧
      0 ≤ t1.gears ∧ t1.gears ≤ 99)
    (hr : 0 ≤ rng (k+3) ∧ rng (k+3) ≤ 1) :
    TanksOK (impactDeath rng k now spid pid t1 st).1.tanks := by
  obtain ⟨hm, hf1, hf2, ha1, ha2, hg1, hg2⟩ := ht1
  rcases hs : lookupTank st.tanks spid with _ | shooter <;> simp only [impactDeath, hs]
  · refine TanksOK_setTank _ _ _ hok ?_
    exact ⟨le_refl 0, hm, hf1, hf2, ha1, ha2, hg1, hg2⟩
  · have hshooter : TankOK shooter := TanksOK_lookup _ _ _ hok hs
    obtain ⟨s1, s2, s3, s4, s5, s6, s7, s8⟩ := hshooter
    refine TanksOK_setTank _ _ _ (TanksOK_setTank _ _ _ hok ?_) ?_
    · refine lootVictim_TankOK _ _ _ _ ?_
      exact ⟨le_refl 0, hm, hf1, hf2, ha1, ha2, hg1, hg2⟩
    · have hg5 : (5 : ℚ) ≤ pyUniform 5
          (max 5 (lootVictim (pyUniform (1/5) (3/5) (rng k)) (pyUniform (1/5) (3/5) (rng (k+1)))
            (pyUniform (1/5) (3/5) (rng (k+2)))
            ({ t1 with hp := 0, alive := false, respawn_timer := 8, path := [],
                       deaths := t1.deaths + 1 })).2) (rng (k+3)) := by
        rw [pyUniform]
        have h1 : (0 : ℚ) ≤ max 5 (lootVictim (pyUniform (1/5) (3/5) (rng k))
            (pyUniform (1/5) (3/5) (rng (k+1))) (pyUniform (1/5) (3/5) (rng (k+2)))
            ({ t1 with hp := 0, alive := false, respawn_timer := 8, path := [],
                       deaths := t1.deaths + 1 })).2 - 5 := by
          have := le_max_left (5 : ℚ) (lootVictim (pyUniform (1/5) (3/5) (rng k))
            (pyUniform (1/5) (3/5) (rng (k+1))) (pyUniform (1/5) (3/5) (rng (k+2)))
            ({ t1 with hp := 0, alive := false, respawn_timer := 8, path := [],
                       deaths := t1.deaths + 1 })).2
          linarith
        nlinarith [hr.1, hr.2]
      refine ⟨s1, s2, s3, s4, s5, s6, ?_, ?_⟩
      · dsimp only
        refine le_min (by norm_num) ?_
        linarith
      · dsimp only
        exact min_le_left _ _

theorem impactOne_TanksOK (sh : Shell) (rng : ℕ → ℚ) (now : ℚ) (acc : GameState × ℕ)
    (pid : ℕ) (hdmg : 0 ≤ sh.damage) (hrng : ∀ j : ℕ, 0 ≤ rng j ∧ rng j ≤ 1)
    (hok : TanksOK acc.1.tanks) : TanksOK (impactOne sh rng now acc pid).1.tanks := by
  rcases hl : lookupTank acc.1.tanks pid with _ | t <;> simp only [impactOne, hl]
  · exact hok
  · have htok : TankOK t := TanksOK_lookup _ _ _ hok hl
    obtain ⟨t1, t2, t3, t4, t5, t6, t7, t8⟩ := htok
    split_ifs with hown halive hdist hlethal
    · exact hok
    · exact hok
    · refine impactDeath_TanksOK rng acc.2 now sh.owner_id pid _ acc.1 hok ?_
        (hrng (acc.2 + 3))
      exact ⟨by linarith, t3, t4, t5, t6, t7, t8⟩
    · refine TanksOK_setTank _ _ _ hok ?_
      push_neg at hlethal
      exact ⟨by dsimp only; linarith, by dsimp only; linarith, t3, t4, t5, t6, t7, t8⟩
    · exact hok

theorem shell_impact_TanksOK (sh : Shell) (rng : ℕ → ℚ) (now : ℚ) (st : GameState)
    (k : ℕ) (hdmg : 0 ≤ sh.damage) (hrng : ∀ j : ℕ, 0 ≤ rng j ∧ rng j ≤ 1)
    (hok : TanksOK st.tanks) : TanksOK (shell_impact sh rng now st k).1.tanks := by
  rw [shell_impact]
  exact foldl_inv (fun acc => TanksOK acc.1.tanks) (fun _ => True)
    (impactOne sh rng now)
    (fun s a _ hs => impactOne_TanksOK sh rng now s a hdmg hrng hs)
    (st.tanks.map Prod.fst) (fun _ _ => trivial) (st, k) hok

theorem move_shells_TanksOK (rng : ℕ → ℚ) (k : ℕ) (now dt : ℚ) (st : GameState)
    (hsh : ShellsOK st.shells) (hrng : ∀ j : ℕ, 0 ≤ rng j ∧ rng j ≤ 1)
    (hok : TanksOK st.tanks) : TanksOK (move_shells rng k now dt st).1.tanks := by
  rw [move_shells]
  refine foldl_inv (fun acc : GameState × ℕ × List (ℕ × Shell) => TanksOK acc.1.tanks)
    (fun e : ℕ × Shell => 0 ≤ e.2.damage) (shellStep rng now dt) ?_ st.shells ?_
    (st, k, []) hok
  · intro s e hQ hs
    rw [shellStep]
    split_ifs with hc
    · exact shell_impact_TanksOK e.2 rng now s.1 s.2.1 hQ hrng hs
    · exact hs
  · intro e he
    refine hsh e.1 e.2 ?_
    rw [Prod.mk.eta]
    exact he

theorem captureFortStep_TanksOK (now dt : ℚ) (tanks : List (ℕ × Tank))
    (events : List GEvent) (f : Fort) (hok : TanksOK tanks) :
    TanksOK (captureFortStep now dt tanks events f).2.1 := by
  rcases hocc : occupantsOn f tanks with _ | ⟨c, _ | ⟨c2, rest⟩⟩ <;>
    simp only [captureFortStep, hocc]
  · split_ifs <;> exact hok
  · split_ifs with h1 h2 h3
    · exact hok
    · refine TanksOK_setTank _ _ _ hok ?_
      rcases hl : lookupTank tanks c with _ | t
      · refine ⟨?_, ?_, ?_, ?_, ?_, ?_, ?_, ?_⟩ <;> norm_num
      · obtain ⟨t1, t2, t3, t4, t5, t6, t7, t8⟩ := TanksOK_lookup _ _ _ hok hl
        exact ⟨t1, t2, t3, t4, t5, t6, t7, t8⟩
    · exact hok
    · exact hok
  · exact hok

theorem update_captures_TanksOK (now dt : ℚ) (st : GameState)
    (hok : TanksOK st.tanks) : TanksOK (update_captures now dt st).tanks := by
  simp only [update_captures]
  refine foldl_inv
    (fun acc : List (ℕ × Fort) × List (ℕ × Tank) × List GEvent => TanksOK acc.2.1)
    (fun _ : ℕ × Fort => True) _ ?_ st.forts (fun _ _ => trivial)
    ([], st.tanks, st.pending_events) hok
  intro s a _ hs
  exact captureFortStep_TanksOK now dt s.2.1 s.2.2 a.2 hs

theorem genStep_TankOK (dt : ℚ) (t : Tank) (ftype : String) (hdt : 0 ≤ dt)
    (h : TankOK t) : TankOK (genStep dt t ftype) := by
  obtain ⟨h1, h2, h3, h4, h5, h6, h7, h8⟩ := h
  simp only [genStep]
  split_ifs <;>
    refine ⟨?_, ?_, ?_, ?_, ?_, ?_, ?_, ?_⟩ <;> dsimp only <;>
      first
        | assumption
        | exact min_le_left _ _
        | exact le_min (by norm_num) (by linarith)

theorem generate_resources_TanksOK (dt : ℚ) (st : GameState) (hdt : 0 ≤ dt)
    (hok : TanksOK st.tanks) : TanksOK (generate_resources dt st).tanks := by
  intro p u hmem
  simp only [generate_resources, List.mem_map] at hmem
  obtain ⟨e, he, heq⟩ := hmem
  have heok : TankOK e.2 := hok e.1 e.2 (by rw [Prod.mk.eta]; exact he)
  by_cases ha : e.2.alive = true
  · rw [if_pos ha] at heq
    rw [Prod.mk.injEq] at heq
    rw [← heq.2]
    exact foldl_inv (fun u : Tank => TankOK u) (fun _ : String => True) (genStep dt)
      (fun s a _ hs => genStep_TankOK dt s a hdt hs) _ (fun _ _ => trivial) e.2 heok
  · rw [if_neg ha] at heq
    exact hok p u (heq ▸ he)

theorem TanksOK_append_single (l : List (ℕ × Tank)) (e : ℕ × Tank)
    (hl : TanksOK l) (he : TankOK e.2) : TanksOK (l ++ [e]) := by
  intro p u hmem
  rw [List.mem_append] at hmem
  rcases hmem with h | h
  · exact hl p u h
  · rw [List.mem_singleton] at h
    subst h
    exact he

theorem check_respawns_TanksOK (rchoice : ℕ → ℕ) (kc : ℕ) (dt : ℚ) (st : GameState)
    (hok : TanksOK st.tanks) : TanksOK (check_respawns rchoice kc dt st).1.tanks := by
  simp only [check_respawns]
  refine foldl_inv (fun acc : List (ℕ × Tank) × ℕ => TanksOK acc.1)
    (fun e : ℕ × Tank => TankOK e.2) (respawnStep rchoice dt) ?_ st.tanks ?_ ([], kc) ?_
  · intro s e hQ hs
    rw [respawnStep]
    split_ifs with ha ht
    · exact TanksOK_append_single _ _ hs hQ
    · refine TanksOK_append_single _ _ hs ?_
      obtain ⟨e1, e2, e3, e4, e5, e6, e7, e8⟩ := hQ
      exact ⟨le_trans e1 e2, le_refl _, e3, e4, e5, e6, e7, e8⟩
    · refine TanksOK_append_single _ _ hs ?_
      obtain ⟨e1, e2, e3, e4, e5, e6, e7, e8⟩ := hQ
      exact ⟨e1, e2, e3, e4, e5, e6, e7, e8⟩
  · intro e he
    exact hok e.1 e.2 (by rw [Prod.mk.eta]; exact he)
  · intro p u h
    exact absurd h (List.not_mem_nil _)

theorem resetTank_TankOK (t : Tank) : TankOK (resetTank t) := by
  refine ⟨?_, ?_, ?_, ?_, ?_, ?_, ?_, ?_⟩ <;> norm_num [resetTank]

theorem reset_match_TanksOK (st : GameState) : TanksOK (reset_match st).tanks := by
  intro p u hmem
  simp only [reset_match, List.mem_map] at hmem
  obtain ⟨e, -, heq⟩ := hmem
  rw [Prod.mk.injEq] at heq
  rw [← heq.2]
  exact resetTank_TankOK e.2

theorem tick_phases_TanksOK (rng : ℕ → ℚ) (rchoice : ℕ → ℕ) (ku kc : ℕ) (now dt : ℚ)
    (s : GameState) (hdt : 0 ≤ dt) (hrng : ∀ j : ℕ, 0 ≤ rng j ∧ rng j ≤ 1)
    (hok : TanksOK s.tanks) (hsh : ShellsOK s.shells) :
    TanksOK (check_respawns rchoice kc dt (generate_resources dt (update_captures now dt
      (move_shells rng ku now dt (move_tanks dt s)).1))).1.tanks := by
  have h1 : TanksOK (move_tanks dt s).tanks := TanksOK_move_tanks dt s hok
  have hsh1 : ShellsOK (move_tanks dt s).shells := hsh
  have h2 : TanksOK (move_shells rng ku now dt (move_tanks dt s)).1.tanks :=
    move_shells_TanksOK rng ku now dt _ hsh1 hrng h1
  have h3 := update_captures_TanksOK now dt _ h2
  have h4 := generate_resources_TanksOK dt _ hdt h3
  exact check_respawns_TanksOK rchoice kc dt _ h4

/-- C4: one tick of `tick_update` with `dt > 0` keeps every tank's
`hp` within `[0, max_hp]` and its `fuel`, `ammo` and `gears` within
`[0, 120]`, `[0, 100]` and `[0, 99]` respectively, provided every tank
starts the tick within those bounds, every live shell carries a
nonnegative damage value, and the injected `random.uniform` stream
returns samples in `[0, 1]`. -/
theorem c4_tick_preserves_bounds (rng : ℕ → ℚ) (rchoice : ℕ → ℕ) (ku kc : ℕ)
    (now dt : ℚ) (st : GameState) (hdt : 0 < dt)
    (hrng : ∀ j : ℕ, 0 ≤ rng j ∧ rng j ≤ 1)
    (hok : TanksOK st.tanks) (hsh : ShellsOK st.shells) :
    TanksOK (tick_update rng rchoice ku kc now dt st).1.tanks := by
  have hdt' : 0 ≤ dt := le_of_lt hdt
  simp only [tick_update]
  by_cases h1 : st.match_over = false
  · rw [if_pos h1]
    by_cases h2 : st.match_timer - dt ≤ 0
    · rw [if_pos h2]
      rw [if_pos (show (end_match { st with match_timer := 0 }).match_over = true from rfl)]
      by_cases h3 : (end_match { st with match_timer := 0 }).post_match_timer - dt ≤ 0
      · rw [if_pos h3]
        exact reset_match_TanksOK _
      · rw [if_neg h3]
        exact hok
    · rw [if_neg h2]
      rw [if_neg (show ¬ (({ st with match_timer := st.match_timer - dt } : GameState).match_over
        = true) from by simp [h1])]
      exact tick_phases_TanksOK rng rchoice ku kc now dt _ hdt' hrng hok hsh
  · rw [if_neg h1]
    have h1' : st.match_over = true := by revert h1; cases st.match_over <;> simp
    rw [if_pos h1']
    by_cases h3 : st.post_match_timer - dt ≤ 0
    · rw [if_pos h3]
      exact reset_match_TanksOK _
    · rw [if_neg h3]
      exact hok

/-- Witness for C4 at the one-tank idle state `c4state` with `dt = 1/20`. -/
theorem c4_witness :
    (0 : ℚ) < 1/20 ∧
    TanksOK (tick_update (fun _ => 0) (fun _ => 0) 0 0 0 (1/20) c4state).1.tanks :=
  ⟨by norm_num,
   c4_tick_preserves_bounds (fun _ => 0) (fun _ => 0) 0 0 0 (1/20) c4state
     (by norm_num) (fun j => by norm_num)
     (by
       intro p u h
       rw [show c4state.tanks = [(0, oTank 50 0)] from rfl, List.mem_singleton] at h
       rw [Prod.mk.injEq] at h
       rw [h.2]
       refine ⟨?_, ?_, ?_, ?_, ?_, ?_, ?_, ?_⟩ <;> norm_num [oTank])
     (by
       intro s sh h
       rw [show c4state.shells = ([] : List (ℕ × Shell)) from rfl] at h
       exact absurd h (List.not_mem_nil _))⟩
